import Mathlib

/-!
A shallow embedding of poseDetector.js.

The script wires a webcam and a pose-estimation engine to two entities of a
3D scene.  Every routine of the script is embedded as a function that takes
the script instance (`State`) and whatever the routine observes of its
surroundings (the browser, the scene graph, the outcome of an asynchronous
request) and returns the new instance together with the ordered list of
calls it made on its collaborators (`Call`).

Conventions.
* Numbers carried by landmarks and positions are exact rationals.
* A console call is recorded with its leading message text; further
  arguments (formatted values, error objects) are left out.
* An asynchronous request whose continuation the script installs with
  `then`/`catch`, `onload`/`onerror` or `setTimeout` is embedded by running
  that continuation on the outcome given as an argument.
* `Call.enter` marks the entry into one of the script's own routines.
-/

namespace PoseDetector

/-- A call made by the script, in the order in which it happens. -/
inductive Call where
  | enter (fn : String)
  | log (msg : String)
  | warn (msg : String)
  | error (msg : String)
  | appendScript (url : String)
  | appendMessage (text : String)
  | setTimeout (ms : Nat)
  | getUserMedia
  | play
  | newPose
  | setOptions
  | onResults
  | send
  | requestAnimationFrame
  | canvas (op : String)
  | fillText (text : String) (x y : Nat)
  | setPosition (name : String) (x y z : ℚ)
  deriving DecidableEq

/-- A landmark of a pose result: normalised coordinates and a confidence. -/
structure Landmark where
  x : ℚ
  y : ℚ
  z : ℚ
  visibility : ℚ
  deriving DecidableEq

/-- The closure variables of one `startDetection` call.  `pending` is a ghost
counter: the promises returned by `pose.send` that have not settled yet. -/
structure Loop where
  isProcessing : Bool
  frameCount : Nat
  pending : Nat
  deriving DecidableEq

/-- The styling of the capture surface that the toggle button touches,
together with the closure variable `visible` of `createCameraElements`. -/
structure Surface where
  visible : Bool
  videoOpacity : String
  canvasOpacity : String
  buttonText : String
  buttonBackground : String
  buttonTransform : String
  deriving DecidableEq

/-- The script instance, the handlers it has registered with the browser and
the frame loops it has started. -/
structure State where
  movementScale : ℚ
  poses : Option (List (Option Landmark))
  videoElement : Bool
  canvasElement : Bool
  canvasWidth : Nat
  canvasHeight : Nat
  pose : Bool
  mediaPipeReady : Bool
  objectsListed : Bool
  setupAttempted : Bool
  firstDetection : Bool
  noDetectionWarned : Bool
  targetSphereFound : Bool
  targetSphereMissing : Bool
  rightHandFound : Bool
  rightHandMissing : Bool
  surface : Option Surface
  onloadedmetadata : Bool
  onloadeddata : Bool
  fallbackTimers : Nat
  warnTimers : Nat
  resultsCallback : Bool
  loops : List Loop

/-- What a callback observes of the page while it runs. -/
structure Browser where
  videoWidth : Nat
  videoHeight : Nat
  readyState : Nat
  poseThrows : Option String

/-- The four globals that `checkLibraries` tests with `typeof`. -/
structure Globals where
  Pose : Bool
  drawConnectors : Bool
  drawLandmarks : Bool
  POSE_CONNECTIONS : Bool

/-- The scene graph as the script sees it: the names of the root's children
and the answer of `findByName`. -/
structure Scene where
  children : List String
  findByName : String → Bool

/-- How the camera request of `setupCamera` ends. -/
inductive CameraOutcome where
  | denied
  | grantedPlayRejected
  | granted
  deriving DecidableEq

/-- How the fetch of one script element ends. -/
inductive FetchOutcome where
  | loaded
  | failed
  deriving DecidableEq

/-- The instance as the engine hands it to `initialize`. -/
def fresh (movementScale : ℚ) : State :=
  { movementScale := movementScale, poses := none, videoElement := false,
    canvasElement := false, canvasWidth := 0, canvasHeight := 0, pose := false,
    mediaPipeReady := false, objectsListed := false, setupAttempted := false,
    firstDetection := false, noDetectionWarned := false,
    targetSphereFound := false, targetSphereMissing := false,
    rightHandFound := false, rightHandMissing := false, surface := none,
    onloadedmetadata := false, onloadeddata := false, fallbackTimers := 0,
    warnTimers := 0, resultsCallback := false, loops := [] }

/-! ## Capture surface -/

/-- The surface right after `createCameraElements`: the video style sheet
sets `opacity: 1.0`, the canvas style sheet sets no opacity. -/
def createdSurface : Surface :=
  { visible := true, videoOpacity := "1.0", canvasOpacity := "",
    buttonText := "👁️ Hide Camera", buttonBackground := "#4CAF50",
    buttonTransform := "" }

/-- The `onclick` handler of the toggle button. -/
def toggleClick (d : Surface) : Surface :=
  let visible := !d.visible
  if visible then
    { d with visible := visible, videoOpacity := "1.0", canvasOpacity := "1.0",
             buttonText := "👁️ Hide Camera", buttonBackground := "#4CAF50" }
  else
    { d with visible := visible, videoOpacity := "0", canvasOpacity := "0",
             buttonText := "👁️ Show Camera", buttonBackground := "#FF5722" }

/-- The `onmouseover` handler of the toggle button. -/
def toggleMouseOver (d : Surface) : Surface :=
  { d with buttonTransform := "scale(1.05)" }

/-- The `onmouseout` handler of the toggle button. -/
def toggleMouseOut (d : Surface) : Surface :=
  { d with buttonTransform := "scale(1)" }

/-- A pointer event on the toggle button. -/
inductive ButtonEvent where
  | click
  | mouseover
  | mouseout
  deriving DecidableEq

/-- The handler that runs for a pointer event. -/
def buttonStep (d : Surface) : ButtonEvent → Surface
  | .click => toggleClick d
  | .mouseover => toggleMouseOver d
  | .mouseout => toggleMouseOut d

/-- An element is shown unless its opacity is the string `0`; the empty
string (no inline opacity) and `1.0` are both fully opaque. -/
def shown (opacity : String) : Bool :=
  opacity != "0"

/-- Body of `createCameraElements`. -/
def createCameraElements (s : State) : State × List Call :=
  ({ s with videoElement := true, canvasElement := true, canvasWidth := 640,
            canvasHeight := 480, surface := some createdSurface },
   [.log "✅ Video and Canvas elements created (centered)"])

/-- Body of `showError`: a message element is appended to the document. -/
def showError (text : String) : List Call :=
  [.appendMessage ("❌ " ++ text)]

/-! ## Frame loop -/

/-- One run of `detectFrame`, the animation-frame callback. -/
def detectFrame (videoElement pose : Bool) (readyState : Nat) (l : Loop) :
    Loop × List Call :=
  if !l.isProcessing && videoElement && pose && decide (readyState ≥ 2) then
    let frameCount := l.frameCount + 1
    ({ isProcessing := true, frameCount := frameCount, pending := l.pending + 1 },
     (if frameCount = 1 then [Call.log "🎥 First frame sent to MediaPipe"] else [])
       ++ [.send, .requestAnimationFrame])
  else
    (l, [.requestAnimationFrame])

/-- The `then` callback of a `pose.send` promise.  With no promise pending
there is nothing to settle and the callback does not run. -/
def sendResolved (l : Loop) : Loop × List Call :=
  if l.pending = 0 then (l, [])
  else
    ({ l with isProcessing := false, pending := l.pending - 1 },
     if l.frameCount = 1 then [.log "✅ First frame processed successfully"] else [])

/-- The `catch` callback of a `pose.send` promise. -/
def sendRejected (l : Loop) : Loop × List Call :=
  if l.pending = 0 then (l, [])
  else
    ({ l with isProcessing := false, pending := l.pending - 1 },
     if l.frameCount ≤ 5 then [.error "❌ Detection error on frame"] else [])

/-- The closure variables set by `startDetection` before its first frame. -/
def newLoop : Loop :=
  { isProcessing := false, frameCount := 0, pending := 0 }

/-- Body of `startDetection`: fresh closure variables and the first,
synchronous run of `detectFrame`. -/
def startDetection (b : Browser) (s : State) : State × List Call :=
  let r := detectFrame s.videoElement s.pose b.readyState newLoop
  ({ s with loops := s.loops ++ [r.1] },
   [.enter "startDetection", .log "🎬 Starting detection loop..."] ++ r.2)

/-! ## Detector -/

/-- Body of `setupMediaPipe`. -/
def setupMediaPipe (b : Browser) (s : State) : State × List Call :=
  if !s.mediaPipeReady then
    (s, [.enter "setupMediaPipe", .error "❌ MediaPipe not ready"])
  else
    match b.poseThrows with
    | some message =>
      (s, [.enter "setupMediaPipe", .log "🎯 Initializing MediaPipe Pose...",
           .newPose, .error "❌ Error setting up Pose:"]
          ++ showError ("Failed to initialize Pose detection: " ++ message))
    | none =>
      let s1 := { s with pose := true, resultsCallback := true }
      let r := startDetection b s1
      (r.1, [.enter "setupMediaPipe", .log "🎯 Initializing MediaPipe Pose...",
             .newPose, .setOptions, .onResults, .log "✅ MediaPipe Pose configured"]
            ++ r.2)

/-- Body of `initializeMediaPipe`. -/
def initializeMediaPipe (b : Browser) (s : State) : State × List Call :=
  if s.setupAttempted then
    (s, [.enter "initializeMediaPipe",
         .log "⏭️ MediaPipe setup already attempted, skipping"])
  else
    let s1 := { s with setupAttempted := true }
    let r1 : State × List Call :=
      if b.videoWidth > 0 then
        ({ s1 with canvasWidth := b.videoWidth, canvasHeight := b.videoHeight },
         [.log "✅ Canvas resized to:"])
      else
        (s1, [.warn "⚠️ Video dimensions not ready, using defaults"])
    let r2 := setupMediaPipe b r1.1
    (r2.1, [.enter "initializeMediaPipe"] ++ r1.2 ++ r2.2)

/-! ## Camera acquirer -/

/-- The `onloadedmetadata` handler installed by `setupCamera`. -/
def onLoadedMetadata (b : Browser) (s : State) : State × List Call :=
  let r := initializeMediaPipe b s
  (r.1, [.log "✅ Metadata loaded - Video dimensions:"] ++ r.2)

/-- The `onloadeddata` handler installed by `setupCamera`. -/
def onLoadedData (b : Browser) (s : State) : State × List Call :=
  if !s.setupAttempted then
    let r := initializeMediaPipe b s
    (r.1, [.log "✅ Video data loaded"] ++ r.2)
  else
    (s, [.log "✅ Video data loaded"])

/-- The callback of the two-second fallback timer set by `setupCamera`. -/
def onFallbackTimeout (b : Browser) (s : State) : State × List Call :=
  if !s.setupAttempted then
    let r := initializeMediaPipe b s
    (r.1, [.warn "⚠️ Forcing MediaPipe setup after timeout"] ++ r.2)
  else
    (s, [])

/-- Body of `setupCamera`, with the promise chain run on the outcome of the
camera request. -/
def setupCamera (o : CameraOutcome) (s : State) : State × List Call :=
  if !s.videoElement then
    (s, [.enter "setupCamera", .error "❌ Video element not found!"])
  else
    let c0 : List Call :=
      [.enter "setupCamera", .log "📹 Requesting camera access...", .getUserMedia]
    let failure : List Call :=
      [.error "❌ Camera Error:"]
        ++ showError "Camera Access Denied. Please allow camera access and refresh."
    match o with
    | .denied => (s, c0 ++ failure)
    | .grantedPlayRejected =>
      ({ s with onloadedmetadata := true, onloadeddata := true },
       c0 ++ [.log "✅ Camera access granted", .play] ++ failure)
    | .granted =>
      ({ s with onloadedmetadata := true, onloadeddata := true,
                fallbackTimers := s.fallbackTimers + 1 },
       c0 ++ [.log "✅ Camera access granted", .play,
              .log "✅ Video.play() completed", .setTimeout 2000])

/-! ## Resource loader -/

/-- The bound on readiness checks in `waitForMediaPipe`. -/
def maxAttempts : Nat := 50

/-- The conjunction tested by `checkLibraries`. -/
def allDefined (g : Globals) : Bool :=
  g.Pose && g.drawConnectors && g.drawLandmarks && g.POSE_CONNECTIONS

/-- The progress log of `checkLibraries`, written on the first check and on
every tenth; `attempts` is the counter after its increment. -/
def checkLog (attempts : Nat) : List Call :=
  if attempts = 1 ∨ attempts % 10 = 0 then
    [.log ("🔍 Check #" ++ toString attempts ++ ":")]
  else
    []

/-- The closure `checkLibraries` of `waitForMediaPipe`; `attempts` is the
closure variable on entry and `globals n` is what check number `n` sees.
The timer it sets runs the next check. -/
def checkLibraries (globals : Nat → Globals) (cam : CameraOutcome) (attempts : Nat)
    (s : State) : State × List Call :=
  let c0 : List Call := [.enter "checkLibraries"] ++ checkLog (attempts + 1)
  if allDefined (globals (attempts + 1)) then
    let r := setupCamera cam { s with mediaPipeReady := true }
    (r.1, c0 ++ [.log "✅ MediaPipe libraries ready!"] ++ r.2)
  else if attempts + 1 < maxAttempts then
    let r := checkLibraries globals cam (attempts + 1) s
    (r.1, c0 ++ [.setTimeout 300] ++ r.2)
  else
    (s, c0 ++ [.error "❌ MediaPipe libraries failed to load"]
          ++ showError "Failed to load MediaPipe libraries. Please refresh the page.")
termination_by maxAttempts - attempts

/-- Body of `waitForMediaPipe`. -/
def waitForMediaPipe (globals : Nat → Globals) (cam : CameraOutcome) (s : State) :
    State × List Call :=
  let r := checkLibraries globals cam 0 s
  (r.1, [.enter "waitForMediaPipe"] ++ r.2)

/-- The two script addresses of `loadMediaPipeLibraries`. -/
def libraries : List String :=
  ["https://cdn.jsdelivr.net/npm/@mediapipe/drawing_utils/drawing_utils.js",
   "https://cdn.jsdelivr.net/npm/@mediapipe/pose/pose.js"]

/-- The closure `onLibraryLoaded`; `loadedCount` is the closure variable on
entry, the new value is returned. -/
def onLibraryLoaded (globals : Nat → Globals) (cam : CameraOutcome) (loadedCount : Nat)
    (s : State) : Nat × State × List Call :=
  let loadedCount := loadedCount + 1
  let c0 : List Call :=
    [.log ("✅ Loaded " ++ toString loadedCount ++ "/" ++ toString libraries.length
            ++ " libraries")]
  if loadedCount = libraries.length then
    let r := waitForMediaPipe globals cam s
    (loadedCount, r.1, c0 ++ [.log "✅ All MediaPipe libraries loaded!"] ++ r.2)
  else
    (loadedCount, s, c0)

/-- The closure `onLibraryError`. -/
def onLibraryError (_url : String) : List Call :=
  [.error "❌ Failed to load library:"]

/-- The completions of the script fetches, handled in their order of
arrival: each is the address of the script and how its fetch ended. -/
def fetchCompletions (globals : Nat → Globals) (cam : CameraOutcome) :
    List (String × FetchOutcome) → Nat → State → State × List Call
  | [], _, s => (s, [])
  | (_, .loaded) :: rest, loadedCount, s =>
    let r := onLibraryLoaded globals cam loadedCount s
    let r2 := fetchCompletions globals cam rest r.1 r.2.1
    (r2.1, r.2.2 ++ r2.2)
  | (url, .failed) :: rest, loadedCount, s =>
    let r2 := fetchCompletions globals cam rest loadedCount s
    (r2.1, onLibraryError url ++ r2.2)

/-- Body of `loadMediaPipeLibraries`: a script element per address, then the
completions `arrivals` of the fetches. -/
def loadMediaPipeLibraries (arrivals : List (String × FetchOutcome))
    (globals : Nat → Globals) (cam : CameraOutcome) (s : State) : State × List Call :=
  let r := fetchCompletions globals cam arrivals 0 s
  (r.1, [.log "📦 Loading MediaPipe libraries..."]
          ++ libraries.map Call.appendScript ++ r.2)

/-- Body of `initialize`. -/
def initializeEntity (arrivals : List (String × FetchOutcome)) (globals : Nat → Globals)
    (cam : CameraOutcome) (s : State) : State × List Call :=
  let s0 := { s with poses := none, videoElement := false, canvasElement := false,
                     pose := false, mediaPipeReady := false, objectsListed := false,
                     setupAttempted := false }
  let r1 := createCameraElements s0
  let r2 := loadMediaPipeLibraries arrivals globals cam r1.1
  (r2.1, [.log "🚀 PoseDetector initialized"] ++ r1.2 ++ r2.2)

/-! ## Results mapper -/

/-- Body of `drawPose`. -/
def drawPose (results : Option (List (Option Landmark))) : List Call :=
  [.canvas "save", .canvas "clearRect", .canvas "translate", .canvas "scale"]
    ++ (match results with
        | some _ =>
          [.canvas "drawConnectors", .canvas "drawLandmarks", .canvas "scale",
           .canvas "translate", .fillText "✓ TRACKING" 10 35]
        | none => [.fillText "NO POSE" 10 35])
    ++ [.canvas "restore"]

/-- The element `landmarks[i]`: absent when the array is too short or the
slot holds no landmark. -/
def landmarkAt (landmarks : List (Option Landmark)) (i : Nat) : Option Landmark :=
  (landmarks.get? i).join

/-- The position computed from a landmark: the three expressions of
`updatePlayCanvasObjects`. -/
def mapped (l : Landmark) (scale : ℚ) : ℚ × ℚ × ℚ :=
  ((l.x - 0.5) * scale, -(l.y - 0.5) * scale, -l.z * scale)

/-- The once-only listing of the root's children at the head of
`updatePlayCanvasObjects`. -/
def listObjects (scene : Scene) (s : State) : State × List Call :=
  if !s.objectsListed then
    ({ s with objectsListed := true },
     [.log "📦 Objects in scene:"] ++ scene.children.map (fun n => Call.log ("  - " ++ n)))
  else
    (s, [])

/-- The block of `updatePlayCanvasObjects` that tracks landmark 11 for the
entity `TargetSphere`. -/
def trackLeftShoulder (scene : Scene) (landmarks : List (Option Landmark)) (s : State) :
    State × List Call :=
  match landmarkAt landmarks 11 with
  | some leftShoulder =>
    if leftShoulder.visibility > 0.5 then
      let p := mapped leftShoulder s.movementScale
      if scene.findByName "TargetSphere" then
        if !s.targetSphereFound then
          ({ s with targetSphereFound := true },
           [.setPosition "TargetSphere" p.1 p.2.1 p.2.2,
            .log "🎯 TargetSphere tracking! Pos:"])
        else
          (s, [.setPosition "TargetSphere" p.1 p.2.1 p.2.2])
      else if !s.targetSphereMissing then
        ({ s with targetSphereMissing := true },
         [.error "❌ TargetSphere not found! Check name in Hierarchy."])
      else
        (s, [])
    else
      (s, [])
  | none => (s, [])

/-- The block of `updatePlayCanvasObjects` that tracks landmark 16 for the
entity `RightHandTarget`. -/
def trackRightWrist (scene : Scene) (landmarks : List (Option Landmark)) (s : State) :
    State × List Call :=
  match landmarkAt landmarks 16 with
  | some rightWrist =>
    if rightWrist.visibility > 0.5 then
      let p := mapped rightWrist s.movementScale
      if scene.findByName "RightHandTarget" then
        if !s.rightHandFound then
          ({ s with rightHandFound := true },
           [.setPosition "RightHandTarget" p.1 p.2.1 p.2.2,
            .log "✋ RightHandTarget tracking! Pos:"])
        else
          (s, [.setPosition "RightHandTarget" p.1 p.2.1 p.2.2])
      else if !s.rightHandMissing then
        ({ s with rightHandMissing := true },
         [.error "❌ RightHandTarget not found! Check name in Hierarchy."])
      else
        (s, [])
    else
      (s, [])
  | none => (s, [])

/-- Body of `updatePlayCanvasObjects`. -/
def updatePlayCanvasObjects (scene : Scene) (landmarks : List (Option Landmark))
    (s : State) : State × List Call :=
  let r0 := listObjects scene s
  let r1 := trackLeftShoulder scene landmarks r0.1
  let r2 := trackRightWrist scene landmarks r1.1
  (r2.1, r0.2 ++ r1.2 ++ r2.2)

/-- The head of the landmarks branch of `onPoseResults`: the landmarks are
kept in `poses` and the first detection is logged once. -/
def noteDetection (landmarks : List (Option Landmark)) (s : State) : State × List Call :=
  let s1 := { s with poses := some landmarks }
  if !s1.firstDetection then
    ({ s1 with firstDetection := true }, [.log "✅ First pose detected! Landmarks:"])
  else
    (s1, [])

/-- Body of `onPoseResults`; `results` is the field `poseLandmarks`, `none`
when it is absent. -/
def onPoseResults (scene : Scene) (results : Option (List (Option Landmark)))
    (s : State) : State × List Call :=
  match results with
  | some landmarks =>
    let r1 := noteDetection landmarks s
    let r2 := updatePlayCanvasObjects scene landmarks r1.1
    (r2.1, r1.2 ++ drawPose results ++ r2.2)
  | none =>
    if s.firstDetection && !s.noDetectionWarned then
      ({ s with noDetectionWarned := true, warnTimers := s.warnTimers + 1 },
       [.warn "⚠️ No pose detected - move back or ensure upper body is visible",
        .setTimeout 3000])
    else
      (s, [])

/-- The callback of the three-second timer set by `onPoseResults`. -/
def onWarnTimeout (s : State) : State :=
  { s with noDetectionWarned := false }

/-! ## The page as an event-driven system -/

/-- What the browser and the engine can deliver to the script once
`initialize` has returned. -/
inductive Event where
  | loadedmetadata (b : Browser)
  | loadeddata (b : Browser)
  | fallbackTimeout (b : Browser)
  | warnTimeout
  | animationFrame (readyState : Nat)
  | sendResolved (loop : Nat)
  | sendRejected (loop : Nat)
  | results (scene : Scene) (poseLandmarks : Option (List (Option Landmark)))
  | button (e : ButtonEvent)

/-- Every started loop runs its animation-frame callback. -/
def tickLoops (videoElement pose : Bool) (readyState : Nat) :
    List Loop → List Loop × List Call
  | [] => ([], [])
  | l :: rest =>
    let r := detectFrame videoElement pose readyState l
    let rs := tickLoops videoElement pose readyState rest
    (r.1 :: rs.1, r.2 ++ rs.2)

/-- A completion callback applied to the loop with the given index. -/
def settleLoop (f : Loop → Loop × List Call) : Nat → List Loop → List Loop × List Call
  | _, [] => ([], [])
  | 0, l :: rest => ((f l).1 :: rest, (f l).2)
  | i + 1, l :: rest => (l :: (settleLoop f i rest).1, (settleLoop f i rest).2)

/-- Delivery of one event: the callback runs only if the script has
registered it. -/
def dispatch (s : State) : Event → State × List Call
  | .loadedmetadata b => if s.onloadedmetadata then onLoadedMetadata b s else (s, [])
  | .loadeddata b => if s.onloadeddata then onLoadedData b s else (s, [])
  | .fallbackTimeout b =>
    if s.fallbackTimers = 0 then (s, [])
    else onFallbackTimeout b { s with fallbackTimers := s.fallbackTimers - 1 }
  | .warnTimeout =>
    if s.warnTimers = 0 then (s, [])
    else (onWarnTimeout { s with warnTimers := s.warnTimers - 1 }, [])
  | .animationFrame readyState =>
    let r := tickLoops s.videoElement s.pose readyState s.loops
    ({ s with loops := r.1 }, r.2)
  | .sendResolved i =>
    let r := settleLoop sendResolved i s.loops
    ({ s with loops := r.1 }, r.2)
  | .sendRejected i =>
    let r := settleLoop sendRejected i s.loops
    ({ s with loops := r.1 }, r.2)
  | .results scene poseLandmarks =>
    if s.resultsCallback then onPoseResults scene poseLandmarks s else (s, [])
  | .button e => ({ s with surface := s.surface.map (fun d => buttonStep d e) }, [])

/-- Delivery of a sequence of events, with everything the script called. -/
def run (s : State) : List Event → State × List Call
  | [] => (s, [])
  | e :: rest =>
    let r := dispatch s e
    let rs := run r.1 rest
    (rs.1, r.2 ++ rs.2)

/-- The three readiness signals of the camera acquirer. -/
inductive Signal where
  | metadataLoaded
  | dataLoaded
  | fallbackTimer
  deriving DecidableEq

/-- The handler that a readiness signal runs. -/
def onSignal (s : State) (sig : Signal × Browser) : State × List Call :=
  match sig.1 with
  | .metadataLoaded => onLoadedMetadata sig.2 s
  | .dataLoaded => onLoadedData sig.2 s
  | .fallbackTimer => onFallbackTimeout sig.2 s

/-- The handlers of a sequence of readiness signals, one after the other. -/
def runSignals (s : State) : List (Signal × Browser) → State × List Call
  | [] => (s, [])
  | sig :: rest =>
    let r := onSignal s sig
    let rs := runSignals r.1 rest
    (rs.1, r.2 ++ rs.2)

/-- An event of one frame loop. -/
inductive LoopEvent where
  | tick (videoElement pose : Bool) (readyState : Nat)
  | resolved
  | rejected

/-- The callback that a loop event runs. -/
def loopStep (l : Loop) : LoopEvent → Loop × List Call
  | .tick videoElement pose readyState => detectFrame videoElement pose readyState l
  | .resolved => sendResolved l
  | .rejected => sendRejected l

/-- A sequence of loop events, one after the other. -/
def runLoop (l : Loop) : List LoopEvent → Loop × List Call
  | [] => (l, [])
  | e :: rest =>
    let r := loopStep l e
    let rs := runLoop r.1 rest
    (rs.1, r.2 ++ rs.2)

/-- A sequence of pose results, each with the scene of its frame: the calls
made for each result, in order. -/
def runResults (s : State) :
    List (Scene × Option (List (Option Landmark))) → List (List Call)
  | [] => []
  | f :: rest => (onPoseResults f.1 f.2 s).2 :: runResults (onPoseResults f.1 f.2 s).1 rest

/-! ## Counting and abbreviations used in the statements -/

/-- How often `setupMediaPipe` was entered. -/
def setupCalls (cs : List Call) : Nat :=
  cs.count (.enter "setupMediaPipe")

/-- The state that `onclick` keeps in step: the flag, whether each surface
is shown, the label and the colour of the button. -/
def toggleView (d : Surface) : Bool × Bool × Bool × String × String :=
  (d.visible, shown d.videoOpacity, shown d.canvasOpacity, d.buttonText, d.buttonBackground)

/-- The surface after `createCameraElements` and a sequence of pointer events. -/
def surfaceAfter (evs : List ButtonEvent) : Surface :=
  evs.foldl buttonStep createdSurface

/-- The position of a `setPosition` call on the entity `name`. -/
def positionOf (name : String) : Call → Option (ℚ × ℚ × ℚ)
  | .setPosition n x y z => if n = name then some (x, y, z) else none
  | _ => none

/-- The positions given to the entity `name`, in order. -/
def positionsOf (name : String) (cs : List Call) : List (ℚ × ℚ × ℚ) :=
  cs.filterMap (positionOf name)

/-- How often the missing `TargetSphere` was reported on the error log. -/
def targetSphereReports (cs : List Call) : Nat :=
  cs.count (.error "❌ TargetSphere not found! Check name in Hierarchy.")

/-- How often the missing `RightHandTarget` was reported on the error log. -/
def rightHandReports (cs : List Call) : Nat :=
  cs.count (.error "❌ RightHandTarget not found! Check name in Hierarchy.")

/-- A result list with the given landmarks at indices 11 and 16 and nothing
else. -/
def sparseLandmarks (l11 l16 : Option Landmark) : List (Option Landmark) :=
  List.replicate 11 none ++ [l11] ++ List.replicate 4 none ++ [l16]

/-- A scene with no children in which `findByName` finds exactly the names
for which `found` holds. -/
def sceneWith (found : String → Bool) : Scene :=
  { children := [], findByName := found }

/-- How often `checkLibraries` ran. -/
def checksDone (cs : List Call) : Nat :=
  cs.count (.enter "checkLibraries")

/-- How often a further check was scheduled, 300 ms ahead. -/
def checksScheduled (cs : List Call) : Nat :=
  cs.count (.setTimeout 300)

/-- How often the library-load failure was shown to the user. -/
def loadErrorsShown (cs : List Call) : Nat :=
  cs.count (.appendMessage "❌ Failed to load MediaPipe libraries. Please refresh the page.")

/-- How often `setupCamera` was entered. -/
def cameraSetups (cs : List Call) : Nat :=
  cs.count (.enter "setupCamera")

/-- How often a frame was submitted to `pose.send`. -/
def sends (cs : List Call) : Nat :=
  cs.count .send

/-- How often `initializeMediaPipe` was entered. -/
def initializeCalls (cs : List Call) : Nat :=
  cs.count (.enter "initializeMediaPipe")

/-- How often the camera failure was shown to the user. -/
def cameraErrorsShown (cs : List Call) : Nat :=
  cs.count (.appendMessage "❌ Camera Access Denied. Please allow camera access and refresh.")

/-- How often the fallback timer was set. -/
def fallbackTimersSet (cs : List Call) : Nat :=
  cs.count (.setTimeout 2000)

/-- How often a failed script fetch was logged. -/
def fetchFailuresLogged (cs : List Call) : Nat :=
  cs.count (.error "❌ Failed to load library:")

/-- How often `waitForMediaPipe` was entered. -/
def pollingStarts (cs : List Call) : Nat :=
  cs.count (.enter "waitForMediaPipe")

/-- Nothing is registered with the browser: no readiness handler, no pending
fallback timer, no results callback, no frame loop. -/
def Idle (s : State) : Prop :=
  s.onloadedmetadata = false ∧ s.onloadeddata = false ∧ s.fallbackTimers = 0
    ∧ s.resultsCallback = false ∧ s.loops = []

/-- The number of fetches in `arrivals` that ended with `loaded`. -/
def loadedAmong (arrivals : List (String × FetchOutcome)) : Nat :=
  (arrivals.filter (fun a => a.2 = .loaded)).length

/-- The number of fetches in `arrivals` that ended with `failed`. -/
def failedAmong (arrivals : List (String × FetchOutcome)) : Nat :=
  (arrivals.filter (fun a => a.2 = .failed)).length

/-- The in-flight mark and the number of unsettled requests agree. -/
def LoopInv (l : Loop) : Prop :=
  l.pending = if l.isProcessing then 1 else 0

/-! ## Capture surface: the toggle -/

/-- After any pointer events the flag and the styling agree. -/
lemma surfaceAfter_view (evs : List ButtonEvent) :
    toggleView (surfaceAfter evs) = (true, true, true, "👁️ Hide Camera", "#4CAF50")
      ∨ toggleView (surfaceAfter evs) = (false, false, false, "👁️ Show Camera", "#FF5722") := by
  unfold surfaceAfter
  induction evs using List.reverseRecOn with
  | nil => left; simp [toggleView, createdSurface, shown]
  | append_singleton evs e ih =>
    rw [List.foldl_append, List.foldl_cons, List.foldl_nil]
    generalize evs.foldl buttonStep createdSurface = d at ih
    cases e with
    | click =>
      rcases ih with h | h
      · right
        simp only [toggleView, Prod.mk.injEq] at h
        simp [buttonStep, toggleClick, toggleView, h.1, shown]
      · left
        simp only [toggleView, Prod.mk.injEq] at h
        simp [buttonStep, toggleClick, toggleView, h.1, shown]
    | mouseover => simpa [buttonStep, toggleMouseOver, toggleView] using ih
    | mouseout => simpa [buttonStep, toggleMouseOut, toggleView] using ih

/-- C10: from every state reached after createCameraElements (any pointer
events on the button), two clicks on the toggle restore the visibility flag,
the shown/hidden state of the video and the canvas, the label and the colour
of the button; two clicks from the initial state give shown surfaces and the
label "👁️ Hide Camera". -/
theorem toggle_twice_restores (evs : List ButtonEvent) :
    toggleView (toggleClick (toggleClick (surfaceAfter evs))) = toggleView (surfaceAfter evs)
      ∧ toggleView (toggleClick (toggleClick createdSurface))
          = (true, true, true, "👁️ Hide Camera", "#4CAF50") := by
  refine ⟨?_, by simp [toggleView, toggleClick, createdSurface, shown]⟩
  rcases surfaceAfter_view evs with h | h
  · rw [h]
    simp only [toggleView, Prod.mk.injEq] at h
    simp [toggleView, toggleClick, h.1, shown]
  · rw [h]
    simp only [toggleView, Prod.mk.injEq] at h
    simp [toggleView, toggleClick, h.1, shown]

/-! ## Camera acquirer: the setup latch -/

lemma setupCalls_append (a b : List Call) : setupCalls (a ++ b) = setupCalls a + setupCalls b := by
  simp [setupCalls]

lemma detectFrame_setupCalls (v p : Bool) (r : Nat) (l : Loop) :
    setupCalls (detectFrame v p r l).2 = 0 := by
  unfold detectFrame
  dsimp only
  split_ifs <;> simp [setupCalls]

lemma startDetection_setupCalls (b : Browser) (s : State) :
    setupCalls (startDetection b s).2 = 0 := by
  simp only [startDetection, setupCalls_append, detectFrame_setupCalls]
  simp [setupCalls]

lemma startDetection_attempted (b : Browser) (s : State) :
    (startDetection b s).1.setupAttempted = s.setupAttempted := rfl

lemma setupMediaPipe_setupCalls (b : Browser) (s : State) :
    setupCalls (setupMediaPipe b s).2 = 1 := by
  unfold setupMediaPipe
  split
  · simp [setupCalls]
  · split
    · simp [setupCalls, showError]
    · simp only [setupCalls_append, startDetection_setupCalls]
      simp [setupCalls]

lemma setupMediaPipe_attempted (b : Browser) (s : State) :
    (setupMediaPipe b s).1.setupAttempted = s.setupAttempted := by
  unfold setupMediaPipe
  split
  · rfl
  · split
    · rfl
    · rw [startDetection_attempted]

lemma initializeMediaPipe_first (b : Browser) (s : State) (h : s.setupAttempted = false) :
    setupCalls (initializeMediaPipe b s).2 = 1
      ∧ (initializeMediaPipe b s).1.setupAttempted = true := by
  unfold initializeMediaPipe
  simp only [h, Bool.false_eq_true, if_false]
  constructor
  · simp only [setupCalls_append, setupMediaPipe_setupCalls]
    split <;> simp [setupCalls]
  · rw [setupMediaPipe_attempted]
    split <;> rfl

lemma initializeMediaPipe_later (b : Browser) (s : State) (h : s.setupAttempted = true) :
    setupCalls (initializeMediaPipe b s).2 = 0 ∧ (initializeMediaPipe b s).1 = s := by
  unfold initializeMediaPipe
  simp [h, setupCalls]

lemma onSignal_first (s : State) (sig : Signal × Browser) (h : s.setupAttempted = false) :
    setupCalls (onSignal s sig).2 = 1 ∧ (onSignal s sig).1.setupAttempted = true := by
  obtain ⟨k, b⟩ := sig
  have hi := initializeMediaPipe_first b s h
  simp only [setupCalls] at hi ⊢
  cases k <;> simp [onSignal, onLoadedMetadata, onLoadedData, onFallbackTimeout, h, hi]

lemma onSignal_later (s : State) (sig : Signal × Browser) (h : s.setupAttempted = true) :
    setupCalls (onSignal s sig).2 = 0 ∧ (onSignal s sig).1 = s := by
  obtain ⟨k, b⟩ := sig
  have hi := initializeMediaPipe_later b s h
  simp only [setupCalls] at hi ⊢
  cases k <;> simp [onSignal, onLoadedMetadata, onLoadedData, onFallbackTimeout, h, hi]

lemma runSignals_later (sigs : List (Signal × Browser)) (s : State)
    (h : s.setupAttempted = true) :
    setupCalls (runSignals s sigs).2 = 0 ∧ (runSignals s sigs).1 = s := by
  induction sigs with
  | nil => simp [runSignals, setupCalls]
  | cons sig rest ih =>
    have h1 := onSignal_later s sig h
    simp only [runSignals, setupCalls_append, h1.1, h1.2, ih, and_self, zero_add]

/-- C1: from a state whose latch setupAttempted is false, every non-empty
sequence of readiness signals (metadata-loaded, data-loaded, fallback-timer,
in any order and with any repetition) enters setupMediaPipe exactly once:
the first signal enters it once and the later signals never. -/
theorem setup_exactly_once (s : State) (h : s.setupAttempted = false)
    (first : Signal × Browser) (later : List (Signal × Browser)) :
    setupCalls (runSignals s (first :: later)).2 = 1
      ∧ setupCalls (onSignal s first).2 = 1
      ∧ setupCalls (runSignals (onSignal s first).1 later).2 = 0 := by
  have h1 := onSignal_first s first h
  have h2 := runSignals_later later (onSignal s first).1 h1.2
  refine ⟨?_, h1.1, h2.1⟩
  simp only [runSignals, setupCalls_append, h1.1, h2.1]

/-- Witness of C1 at the instance left by createCameraElements with the
libraries ready: data-loaded first, then metadata-loaded and the timer. -/
theorem setup_exactly_once_witness :
    ({ (createCameraElements (fresh 10)).1 with mediaPipeReady := true }).setupAttempted = false
      ∧ (setupCalls (runSignals { (createCameraElements (fresh 10)).1 with mediaPipeReady := true }
            [(.dataLoaded, ⟨640, 480, 4, none⟩), (.metadataLoaded, ⟨640, 480, 4, none⟩),
             (.fallbackTimer, ⟨640, 480, 4, none⟩)]).2 = 1
        ∧ setupCalls (onSignal { (createCameraElements (fresh 10)).1 with mediaPipeReady := true }
            (.dataLoaded, ⟨640, 480, 4, none⟩)).2 = 1
        ∧ setupCalls (runSignals
            (onSignal { (createCameraElements (fresh 10)).1 with mediaPipeReady := true }
              (.dataLoaded, ⟨640, 480, 4, none⟩)).1
            [(.metadataLoaded, ⟨640, 480, 4, none⟩), (.fallbackTimer, ⟨640, 480, 4, none⟩)]).2 = 0) :=
  ⟨rfl, setup_exactly_once _ rfl (.dataLoaded, ⟨640, 480, 4, none⟩)
    [(.metadataLoaded, ⟨640, 480, 4, none⟩), (.fallbackTimer, ⟨640, 480, 4, none⟩)]⟩

/-! ## Frame loop: admission control -/

lemma detectFrame_fst (v p : Bool) (r : Nat) (l : Loop) :
    (detectFrame v p r l).1
      = if !l.isProcessing && v && p && decide (r ≥ 2) then
          { isProcessing := true, frameCount := l.frameCount + 1, pending := l.pending + 1 }
        else l := by
  unfold detectFrame
  split <;> rfl

lemma sendResolved_fst (l : Loop) :
    (sendResolved l).1
      = if l.pending = 0 then l else { l with isProcessing := false, pending := l.pending - 1 } := by
  unfold sendResolved
  split <;> rfl

lemma sendRejected_fst (l : Loop) :
    (sendRejected l).1
      = if l.pending = 0 then l else { l with isProcessing := false, pending := l.pending - 1 } := by
  unfold sendRejected
  split <;> rfl

lemma loopStep_inv (l : Loop) (e : LoopEvent) (h : LoopInv l) : LoopInv (loopStep l e).1 := by
  obtain ⟨ip, fc, pd⟩ := l
  unfold LoopInv at h ⊢
  cases e with
  | tick v p r =>
    rw [loopStep, detectFrame_fst]
    cases ip <;> simp at h ⊢
    · split <;> simp [h]
    · exact h
  | resolved =>
    rw [loopStep, sendResolved_fst]
    cases ip <;> simp at h ⊢
    · simp [h]
    · simp [h]
  | rejected =>
    rw [loopStep, sendRejected_fst]
    cases ip <;> simp at h ⊢
    · simp [h]
    · simp [h]

lemma runLoop_inv (evs : List LoopEvent) (l : Loop) (h : LoopInv l) :
    LoopInv (runLoop l evs).1 := by
  induction evs generalizing l with
  | nil => exact h
  | cons e rest ih => exact ih _ (loopStep_inv l e h)

lemma newLoop_inv : LoopInv newLoop := by
  simp [LoopInv, newLoop]

lemma inv_pending_le (l : Loop) (h : LoopInv l) : l.pending ≤ 1 := by
  unfold LoopInv at h
  split_ifs at h <;> omega

lemma inv_in_flight (l : Loop) (h : LoopInv l) (hp : 0 < l.pending) : l.isProcessing = true := by
  unfold LoopInv at h
  split_ifs at h with hc
  · exact hc
  · omega

lemma detectFrame_submits (r : Nat) (l : Loop) (hl : l.isProcessing = false) (hr : 2 ≤ r) :
    (detectFrame true true r l).1.pending = l.pending + 1
      ∧ Call.send ∈ (detectFrame true true r l).2 := by
  simp [detectFrame, hl, hr]

lemma sends_append (a b : List Call) : sends (a ++ b) = sends a + sends b := by
  simp [sends]

lemma runLoop_append (l : Loop) (a b : List LoopEvent) :
    runLoop l (a ++ b)
      = ((runLoop (runLoop l a).1 b).1, (runLoop l a).2 ++ (runLoop (runLoop l a).1 b).2) := by
  induction a generalizing l with
  | nil => simp [runLoop]
  | cons e rest ih => simp [runLoop, ih, List.append_assoc]

lemma tick_busy (l : Loop) (hb : l.isProcessing = true) (v p : Bool) (r : Nat) :
    detectFrame v p r l = (l, [.requestAnimationFrame]) := by
  simp [detectFrame, hb]

lemma tick_idle (l : Loop) (hi : l.isProcessing = false) (r : Nat) (hr : 2 ≤ r) :
    (detectFrame true true r l).1.isProcessing = true
      ∧ (detectFrame true true r l).1.pending = l.pending + 1
      ∧ sends (detectFrame true true r l).2 = 1 := by
  refine ⟨by simp [detectFrame, hi, hr], by simp [detectFrame, hi, hr], ?_⟩
  simp only [detectFrame, hi, hr, Bool.not_false, Bool.and_self, decide_True, if_true, sends]
  split_ifs <;> simp [List.count_cons]

lemma tick_ready (l : Loop) (h : LoopInv l) (r : Nat) (hr : 2 ≤ r) :
    (detectFrame true true r l).1.isProcessing = true
      ∧ (detectFrame true true r l).1.pending = 1 := by
  cases hl : l.isProcessing
  · obtain ⟨t1, t2, -⟩ := tick_idle l hl r hr
    unfold LoopInv at h
    simp only [hl, Bool.false_eq_true, if_false] at h
    exact ⟨t1, by rw [t2, h]⟩
  · rw [tick_busy l hl]
    unfold LoopInv at h
    simp only [hl, if_true] at h
    exact ⟨hl, h⟩

lemma resolved_settles (l : Loop) (hp : l.pending = 1) :
    (sendResolved l).1.isProcessing = false ∧ (sendResolved l).1.pending = 0
      ∧ sends (sendResolved l).2 = 0 := by
  have hne : l.pending ≠ 0 := by omega
  refine ⟨by simp [sendResolved, hne], by simp [sendResolved, hne, hp], ?_⟩
  simp only [sendResolved, hne, if_false, sends]
  split_ifs <;> simp [List.count_cons]

lemma rejected_settles (l : Loop) (hp : l.pending = 1) :
    (sendRejected l).1.isProcessing = false ∧ (sendRejected l).1.pending = 0
      ∧ sends (sendRejected l).2 = 0 := by
  have hne : l.pending ≠ 0 := by omega
  refine ⟨by simp [sendRejected, hne], by simp [sendRejected, hne, hp], ?_⟩
  simp only [sendRejected, hne, if_false, sends]
  split_ifs <;> simp [List.count_cons]

lemma loopStep_sends (l : Loop) (e : LoopEvent) :
    sends (loopStep l e).2 + l.frameCount = (loopStep l e).1.frameCount := by
  cases e with
  | tick v p r =>
    simp only [loopStep, detectFrame, sends]
    split_ifs <;> simp [List.count_cons] <;> omega
  | resolved =>
    simp only [loopStep, sendResolved, sends]
    split_ifs <;> simp [List.count_cons]
  | rejected =>
    simp only [loopStep, sendRejected, sends]
    split_ifs <;> simp [List.count_cons]

lemma runLoop_sends (evs : List LoopEvent) (l : Loop) :
    sends (runLoop l evs).2 + l.frameCount = (runLoop l evs).1.frameCount := by
  induction evs generalizing l with
  | nil => simp [runLoop, sends]
  | cons e rest ih =>
    have h1 := loopStep_sends l e
    have h2 := ih (loopStep l e).1
    simp only [runLoop, sends_append]
    omega

/-- C2: in the loop started by startDetection, after every finite sequence
of display ticks and inference completions (resolve or reject, in any
interleaving) at most one pose.send request is unsettled; while one is in
flight a tick submits nothing and leaves the loop as it is; a completion of
either kind settles the request and clears the mark, and the next tick on a
ready video submits again.  The in-flight state is reached: after any
history a tick on a ready video leaves exactly one request unsettled (the
tick submits when none was), a further tick of any kind adds no pose.send
call, and after either completion the next ready tick adds exactly one.
Every pose.send call of the history is counted by frameCount. -/
theorem at_most_one_in_flight (evs : List LoopEvent) :
    (runLoop newLoop evs).1.pending ≤ 1
      ∧ (0 < (runLoop newLoop evs).1.pending →
          ∀ v p r, detectFrame v p r (runLoop newLoop evs).1
            = ((runLoop newLoop evs).1, [.requestAnimationFrame]))
      ∧ (0 < (runLoop newLoop evs).1.pending →
          (sendResolved (runLoop newLoop evs).1).1.pending = 0
            ∧ (sendRejected (runLoop newLoop evs).1).1.pending = 0
            ∧ ∀ r, 2 ≤ r →
                Call.send ∈ (detectFrame true true r (sendResolved (runLoop newLoop evs).1).1).2
                  ∧ Call.send ∈ (detectFrame true true r (sendRejected (runLoop newLoop evs).1).1).2)
      ∧ ((runLoop newLoop evs).1.pending = 0 →
          ∀ r, 2 ≤ r →
            sends (detectFrame true true r (runLoop newLoop evs).1).2 = 1
              ∧ (detectFrame true true r (runLoop newLoop evs).1).1.pending = 1)
      ∧ (∀ r, 2 ≤ r → (runLoop newLoop (evs ++ [.tick true true r])).1.pending = 1)
      ∧ (∀ r v p r2, 2 ≤ r →
          sends (runLoop newLoop (evs ++ [.tick true true r, .tick v p r2])).2
            = sends (runLoop newLoop (evs ++ [.tick true true r])).2)
      ∧ (∀ r r2, 2 ≤ r → 2 ≤ r2 →
          (runLoop newLoop (evs ++ [.tick true true r, .resolved])).1.pending = 0
            ∧ sends (runLoop newLoop (evs ++ [.tick true true r, .resolved, .tick true true r2])).2
                = sends (runLoop newLoop (evs ++ [.tick true true r, .resolved])).2 + 1
            ∧ (runLoop newLoop
                (evs ++ [.tick true true r, .resolved, .tick true true r2])).1.pending = 1)
      ∧ (∀ r r2, 2 ≤ r → 2 ≤ r2 →
          (runLoop newLoop (evs ++ [.tick true true r, .rejected])).1.pending = 0
            ∧ sends (runLoop newLoop (evs ++ [.tick true true r, .rejected, .tick true true r2])).2
                = sends (runLoop newLoop (evs ++ [.tick true true r, .rejected])).2 + 1
            ∧ (runLoop newLoop
                (evs ++ [.tick true true r, .rejected, .tick true true r2])).1.pending = 1)
      ∧ sends (runLoop newLoop evs).2 = (runLoop newLoop evs).1.frameCount := by
  have hinv := runLoop_inv evs newLoop newLoop_inv
  have hcount := runLoop_sends evs newLoop
  simp only [runLoop_append, sends_append]
  generalize runLoop newLoop evs = R at hinv hcount
  obtain ⟨l, cs⟩ := R
  simp only at hinv hcount ⊢
  have hle := inv_pending_le l hinv
  refine ⟨hle, fun hp => ?_, fun hp => ?_, fun hp r hr => ?_, fun r hr => ?_,
    fun r v p r2 hr => ?_, fun r r2 hr hr2 => ?_, fun r r2 hr hr2 => ?_, ?_⟩
  · intro v p r
    simp [detectFrame, inv_in_flight l hinv hp]
  · have hne : l.pending ≠ 0 := by omega
    have h1 : l.pending = 1 := by omega
    refine ⟨by simp [sendResolved, hne, h1], by simp [sendRejected, hne, h1], fun r hr => ⟨?_, ?_⟩⟩
    · exact (detectFrame_submits r _ (by simp [sendResolved, hne]) hr).2
    · exact (detectFrame_submits r _ (by simp [sendRejected, hne]) hr).2
  · have hi : l.isProcessing = false := by
      cases hl : l.isProcessing
      · rfl
      · unfold LoopInv at hinv
        simp [hl] at hinv
        omega
    obtain ⟨-, t2, t3⟩ := tick_idle l hi r hr
    exact ⟨t3, by rw [t2, hp]⟩
  · simp only [runLoop, loopStep]
    exact (tick_ready l hinv r hr).2
  · obtain ⟨b1, -⟩ := tick_ready l hinv r hr
    simp only [runLoop, loopStep, sends_append, tick_busy _ b1]
    simp [sends, List.count_cons]
  · obtain ⟨b1, b2⟩ := tick_ready l hinv r hr
    obtain ⟨s1, s2, s3⟩ := resolved_settles _ b2
    obtain ⟨u1, u2, u3⟩ := tick_idle _ s1 r2 hr2
    simp only [runLoop, loopStep, sends_append]
    refine ⟨s2, ?_, by rw [u2, s2]⟩
    simp only [u3, sends_append]
    simp only [sends, List.count_nil]
    omega
  · obtain ⟨b1, b2⟩ := tick_ready l hinv r hr
    obtain ⟨s1, s2, s3⟩ := rejected_settles _ b2
    obtain ⟨u1, u2, u3⟩ := tick_idle _ s1 r2 hr2
    simp only [runLoop, loopStep, sends_append]
    refine ⟨s2, ?_, by rw [u2, s2]⟩
    simp only [u3, sends_append]
    simp only [sends, List.count_nil]
    omega
  · simpa [newLoop] using hcount

/-! ## Results mapper -/

lemma positionsOf_append (name : String) (a b : List Call) :
    positionsOf name (a ++ b) = positionsOf name a ++ positionsOf name b := by
  simp [positionsOf]

lemma positionsOf_logs (name : String) (f : String → String) (ns : List String) :
    positionsOf name (ns.map (fun n => Call.log (f n))) = [] := by
  induction ns with
  | nil => rfl
  | cons n rest ih =>
    simp only [positionsOf, List.map_cons, List.filterMap_cons, positionOf] at ih ⊢
    exact ih

lemma listObjects_positions (name : String) (scene : Scene) (s : State) :
    positionsOf name (listObjects scene s).2 = [] := by
  unfold listObjects
  split
  · rw [positionsOf_append, positionsOf_logs]
    simp [positionsOf, positionOf]
  · rfl

lemma listObjects_scale (scene : Scene) (s : State) :
    (listObjects scene s).1.movementScale = s.movementScale := by
  unfold listObjects
  split <;> rfl

lemma drawPose_positions (name : String) (results : Option (List (Option Landmark))) :
    positionsOf name (drawPose results) = [] := by
  cases results <;> simp [drawPose, positionsOf, positionOf]

lemma trackLeftShoulder_scale (scene : Scene) (lms : List (Option Landmark)) (s : State) :
    (trackLeftShoulder scene lms s).1.movementScale = s.movementScale := by
  unfold trackLeftShoulder
  split
  · split_ifs <;> rfl
  · rfl

lemma trackRightWrist_scale (scene : Scene) (lms : List (Option Landmark)) (s : State) :
    (trackRightWrist scene lms s).1.movementScale = s.movementScale := by
  unfold trackRightWrist
  split
  · split_ifs <;> rfl
  · rfl

lemma trackLeftShoulder_other (scene : Scene) (lms : List (Option Landmark)) (s : State) :
    positionsOf "RightHandTarget" (trackLeftShoulder scene lms s).2 = [] := by
  unfold trackLeftShoulder
  split
  · split_ifs <;> simp [positionsOf, positionOf]
  · rfl

lemma trackRightWrist_other (scene : Scene) (lms : List (Option Landmark)) (s : State) :
    positionsOf "TargetSphere" (trackRightWrist scene lms s).2 = [] := by
  unfold trackRightWrist
  split
  · split_ifs <;> simp [positionsOf, positionOf]
  · rfl

lemma trackLeftShoulder_sets (scene : Scene) (lms : List (Option Landmark)) (s : State)
    (l : Landmark) (hl : landmarkAt lms 11 = some l) (hv : l.visibility > 0.5)
    (hf : scene.findByName "TargetSphere" = true) :
    positionsOf "TargetSphere" (trackLeftShoulder scene lms s).2
      = [((l.x - 0.5) * s.movementScale, -(l.y - 0.5) * s.movementScale,
          -l.z * s.movementScale)] := by
  unfold trackLeftShoulder
  simp only [hl, hv, hf, if_true]
  split_ifs <;> simp [positionsOf, positionOf, mapped]

lemma trackRightWrist_sets (scene : Scene) (lms : List (Option Landmark)) (s : State)
    (l : Landmark) (hl : landmarkAt lms 16 = some l) (hv : l.visibility > 0.5)
    (hf : scene.findByName "RightHandTarget" = true) :
    positionsOf "RightHandTarget" (trackRightWrist scene lms s).2
      = [((l.x - 0.5) * s.movementScale, -(l.y - 0.5) * s.movementScale,
          -l.z * s.movementScale)] := by
  unfold trackRightWrist
  simp only [hl, hv, hf, if_true]
  split_ifs <;> simp [positionsOf, positionOf, mapped]

lemma trackLeftShoulder_skips (scene : Scene) (lms : List (Option Landmark)) (s : State)
    (h : ∀ l, landmarkAt lms 11 = some l → l.visibility ≤ 0.5) :
    positionsOf "TargetSphere" (trackLeftShoulder scene lms s).2 = [] := by
  unfold trackLeftShoulder
  split
  · next l hl =>
    have := h l hl
    rw [if_neg (not_lt.mpr this)]
    rfl
  · rfl

lemma trackRightWrist_skips (scene : Scene) (lms : List (Option Landmark)) (s : State)
    (h : ∀ l, landmarkAt lms 16 = some l → l.visibility ≤ 0.5) :
    positionsOf "RightHandTarget" (trackRightWrist scene lms s).2 = [] := by
  unfold trackRightWrist
  split
  · next l hl =>
    have := h l hl
    rw [if_neg (not_lt.mpr this)]
    rfl
  · rfl

lemma update_targetSphere (scene : Scene) (lms : List (Option Landmark)) (s : State) :
    positionsOf "TargetSphere" (updatePlayCanvasObjects scene lms s).2
      = positionsOf "TargetSphere" (trackLeftShoulder scene lms (listObjects scene s).1).2 := by
  simp [updatePlayCanvasObjects, positionsOf_append, listObjects_positions,
    trackRightWrist_other]

lemma update_rightHand (scene : Scene) (lms : List (Option Landmark)) (s : State) :
    positionsOf "RightHandTarget" (updatePlayCanvasObjects scene lms s).2
      = positionsOf "RightHandTarget"
          (trackRightWrist scene lms (trackLeftShoulder scene lms (listObjects scene s).1).1).2 := by
  simp [updatePlayCanvasObjects, positionsOf_append, listObjects_positions,
    trackLeftShoulder_other]

/-- C3: for every landmark list and every scale, when landmark 11 (resp. 16)
is present with visibility above 0.5 and the entity TargetSphere (resp.
RightHandTarget) is found, updatePlayCanvasObjects calls setPosition on that
entity exactly once, with ((x - 0.5) * s, -(y - 0.5) * s, -z * s); with scale
10, landmark 11 at (0.5, 0.5, 0) gives (0, 0, 0) and landmark 16 at
(0.75, 0.25, 0.1) gives (2.5, 2.5, -1). -/
theorem updatePlayCanvasObjects_position (scene : Scene) (lms : List (Option Landmark))
    (s : State) :
    (∀ l, landmarkAt lms 11 = some l → l.visibility > 0.5 →
        scene.findByName "TargetSphere" = true →
        positionsOf "TargetSphere" (updatePlayCanvasObjects scene lms s).2
          = [((l.x - 0.5) * s.movementScale, -(l.y - 0.5) * s.movementScale,
              -l.z * s.movementScale)])
      ∧ (∀ l, landmarkAt lms 16 = some l → l.visibility > 0.5 →
          scene.findByName "RightHandTarget" = true →
          positionsOf "RightHandTarget" (updatePlayCanvasObjects scene lms s).2
            = [((l.x - 0.5) * s.movementScale, -(l.y - 0.5) * s.movementScale,
                -l.z * s.movementScale)])
      ∧ (∀ v, landmarkAt lms 11 = some ⟨0.5, 0.5, 0, v⟩ → v > 0.5 →
          scene.findByName "TargetSphere" = true → s.movementScale = 10 →
          positionsOf "TargetSphere" (updatePlayCanvasObjects scene lms s).2 = [(0, 0, 0)])
      ∧ (∀ v, landmarkAt lms 16 = some ⟨0.75, 0.25, 0.1, v⟩ → v > 0.5 →
          scene.findByName "RightHandTarget" = true → s.movementScale = 10 →
          positionsOf "RightHandTarget" (updatePlayCanvasObjects scene lms s).2
            = [(2.5, 2.5, -1)]) := by
  have h11 : ∀ l, landmarkAt lms 11 = some l → l.visibility > 0.5 →
      scene.findByName "TargetSphere" = true →
      positionsOf "TargetSphere" (updatePlayCanvasObjects scene lms s).2
        = [((l.x - 0.5) * s.movementScale, -(l.y - 0.5) * s.movementScale,
            -l.z * s.movementScale)] := by
    intro l hl hv hf
    rw [update_targetSphere, trackLeftShoulder_sets scene lms _ l hl hv hf, listObjects_scale]
  have h16 : ∀ l, landmarkAt lms 16 = some l → l.visibility > 0.5 →
      scene.findByName "RightHandTarget" = true →
      positionsOf "RightHandTarget" (updatePlayCanvasObjects scene lms s).2
        = [((l.x - 0.5) * s.movementScale, -(l.y - 0.5) * s.movementScale,
            -l.z * s.movementScale)] := by
    intro l hl hv hf
    rw [update_rightHand, trackRightWrist_sets scene lms _ l hl hv hf,
      trackLeftShoulder_scale, listObjects_scale]
  refine ⟨h11, h16, ?_, ?_⟩
  · intro v hl hv hf hs
    rw [h11 _ hl hv hf, hs]
    norm_num
  · intro v hl hv hf hs
    rw [h16 _ hl hv hf, hs]
    norm_num

/-- Witness of C3: both landmarks confident, both entities found, scale 10. -/
theorem updatePlayCanvasObjects_position_witness :
    positionsOf "TargetSphere"
        (updatePlayCanvasObjects (sceneWith fun _ => true)
          (sparseLandmarks (some ⟨0.5, 0.5, 0, 0.9⟩) (some ⟨0.75, 0.25, 0.1, 0.9⟩))
          (fresh 10)).2 = [(0, 0, 0)]
      ∧ positionsOf "RightHandTarget"
        (updatePlayCanvasObjects (sceneWith fun _ => true)
          (sparseLandmarks (some ⟨0.5, 0.5, 0, 0.9⟩) (some ⟨0.75, 0.25, 0.1, 0.9⟩))
          (fresh 10)).2 = [(2.5, 2.5, -1)] :=
  ⟨(updatePlayCanvasObjects_position (sceneWith fun _ => true)
      (sparseLandmarks (some ⟨0.5, 0.5, 0, 0.9⟩) (some ⟨0.75, 0.25, 0.1, 0.9⟩))
      (fresh 10)).2.2.1 0.9 rfl (by norm_num) rfl rfl,
   (updatePlayCanvasObjects_position (sceneWith fun _ => true)
      (sparseLandmarks (some ⟨0.5, 0.5, 0, 0.9⟩) (some ⟨0.75, 0.25, 0.1, 0.9⟩))
      (fresh 10)).2.2.2 0.9 rfl (by norm_num) rfl rfl⟩

lemma noteDetection_fields (lms : List (Option Landmark)) (s : State) :
    (noteDetection lms s).1.movementScale = s.movementScale
      ∧ (noteDetection lms s).1.targetSphereMissing = s.targetSphereMissing
      ∧ (noteDetection lms s).1.rightHandMissing = s.rightHandMissing := by
  unfold noteDetection
  dsimp only
  split_ifs <;> exact ⟨rfl, rfl, rfl⟩

lemma noteDetection_calls (lms : List (Option Landmark)) (s : State) :
    (noteDetection lms s).2 = [.log "✅ First pose detected! Landmarks:"]
      ∨ (noteDetection lms s).2 = [] := by
  unfold noteDetection
  dsimp only
  split_ifs
  · left; rfl
  · right; rfl

lemma noteDetection_positions (name : String) (lms : List (Option Landmark)) (s : State) :
    positionsOf name (noteDetection lms s).2 = [] := by
  rcases noteDetection_calls lms s with h | h <;> rw [h] <;> rfl

lemma onPoseResults_targetSphere (scene : Scene) (lms : List (Option Landmark)) (s : State) :
    ∃ s1, positionsOf "TargetSphere" (onPoseResults scene (some lms) s).2
      = positionsOf "TargetSphere" (trackLeftShoulder scene lms s1).2
      ∧ s1.movementScale = s.movementScale := by
  refine ⟨(listObjects scene (noteDetection lms s).1).1, ?_, ?_⟩
  · simp only [onPoseResults, positionsOf_append, drawPose_positions, update_targetSphere,
      noteDetection_positions, List.nil_append]
  · rw [listObjects_scale, (noteDetection_fields lms s).1]

lemma onPoseResults_rightHand (scene : Scene) (lms : List (Option Landmark)) (s : State) :
    ∃ s1, positionsOf "RightHandTarget" (onPoseResults scene (some lms) s).2
      = positionsOf "RightHandTarget" (trackRightWrist scene lms s1).2
      ∧ s1.movementScale = s.movementScale := by
  refine ⟨(trackLeftShoulder scene lms (listObjects scene (noteDetection lms s).1).1).1, ?_, ?_⟩
  · simp only [onPoseResults, positionsOf_append, drawPose_positions, update_rightHand,
      noteDetection_positions, List.nil_append]
  · rw [trackLeftShoulder_scale, listObjects_scale, (noteDetection_fields lms s).1]

lemma onPoseResults_absent_positions (name : String) (scene : Scene) (s : State) :
    positionsOf name (onPoseResults scene none s).2 = [] := by
  simp only [onPoseResults]
  split_ifs <;> simp [positionsOf, positionOf]

/-- C4: onPoseResults makes no setPosition call on TargetSphere (resp.
RightHandTarget) when the result has no landmarks, when the landmark at
index 11 (resp. 16) is missing, or when its visibility is at most 0.5, the
value 0.5 itself included. -/
theorem onPoseResults_leaves_target (scene : Scene) (s : State) :
    (positionsOf "TargetSphere" (onPoseResults scene none s).2 = []
        ∧ positionsOf "RightHandTarget" (onPoseResults scene none s).2 = [])
      ∧ (∀ lms, landmarkAt lms 11 = none →
          positionsOf "TargetSphere" (onPoseResults scene (some lms) s).2 = [])
      ∧ (∀ lms, landmarkAt lms 16 = none →
          positionsOf "RightHandTarget" (onPoseResults scene (some lms) s).2 = [])
      ∧ (∀ lms l, landmarkAt lms 11 = some l → l.visibility ≤ 0.5 →
          positionsOf "TargetSphere" (onPoseResults scene (some lms) s).2 = [])
      ∧ (∀ lms l, landmarkAt lms 16 = some l → l.visibility ≤ 0.5 →
          positionsOf "RightHandTarget" (onPoseResults scene (some lms) s).2 = []) := by
  refine ⟨⟨onPoseResults_absent_positions _ scene s, onPoseResults_absent_positions _ scene s⟩,
    ?_, ?_, ?_, ?_⟩
  · intro lms h
    obtain ⟨s1, h1, -⟩ := onPoseResults_targetSphere scene lms s
    rw [h1]
    exact trackLeftShoulder_skips scene lms s1 (fun l hl => by simp [h] at hl)
  · intro lms h
    obtain ⟨s1, h1, -⟩ := onPoseResults_rightHand scene lms s
    rw [h1]
    exact trackRightWrist_skips scene lms s1 (fun l hl => by simp [h] at hl)
  · intro lms l h hv
    obtain ⟨s1, h1, -⟩ := onPoseResults_targetSphere scene lms s
    rw [h1]
    exact trackLeftShoulder_skips scene lms s1
      (fun l2 hl => by rw [h] at hl; cases hl; exact hv)
  · intro lms l h hv
    obtain ⟨s1, h1, -⟩ := onPoseResults_rightHand scene lms s
    rw [h1]
    exact trackRightWrist_skips scene lms s1
      (fun l2 hl => by rw [h] at hl; cases hl; exact hv)

/-- Witness of C4: both landmarks at visibility 0.5 exactly, both entities
present in the scene. -/
theorem onPoseResults_leaves_target_witness :
    positionsOf "TargetSphere"
        (onPoseResults (sceneWith fun _ => true)
          (some (sparseLandmarks (some ⟨0.3, 0.4, 0.1, 0.5⟩) (some ⟨0.6, 0.7, 0.2, 0.5⟩)))
          (fresh 10)).2 = []
      ∧ positionsOf "RightHandTarget"
        (onPoseResults (sceneWith fun _ => true)
          (some (sparseLandmarks (some ⟨0.3, 0.4, 0.1, 0.5⟩) (some ⟨0.6, 0.7, 0.2, 0.5⟩)))
          (fresh 10)).2 = [] :=
  ⟨(onPoseResults_leaves_target (sceneWith fun _ => true) (fresh 10)).2.2.2.1
      (sparseLandmarks (some ⟨0.3, 0.4, 0.1, 0.5⟩) (some ⟨0.6, 0.7, 0.2, 0.5⟩))
      ⟨0.3, 0.4, 0.1, 0.5⟩ rfl (le_refl _),
   (onPoseResults_leaves_target (sceneWith fun _ => true) (fresh 10)).2.2.2.2
      (sparseLandmarks (some ⟨0.3, 0.4, 0.1, 0.5⟩) (some ⟨0.6, 0.7, 0.2, 0.5⟩))
      ⟨0.6, 0.7, 0.2, 0.5⟩ rfl (le_refl _)⟩

/-- C9: for a pose result without landmarks onPoseResults draws no caption:
it makes no fillText call and no canvas call at all, while drawPose, which
it does not call on this path, holds the caption NO POSE for that case. -/
theorem onPoseResults_absent_no_caption (scene : Scene) (s : State) :
    (∀ c ∈ (onPoseResults scene none s).2,
        c = .warn "⚠️ No pose detected - move back or ensure upper body is visible"
          ∨ c = .setTimeout 3000)
      ∧ (∀ text x y, Call.fillText text x y ∉ (onPoseResults scene none s).2)
      ∧ Call.fillText "NO POSE" 10 35 ∈ drawPose none := by
  refine ⟨?_, ?_, by simp [drawPose]⟩
  · intro c hc
    simp only [onPoseResults] at hc
    split_ifs at hc <;> simp at hc
    exact hc
  · intro text x y hc
    simp only [onPoseResults] at hc
    split_ifs at hc <;> simp at hc

/-! ## Results mapper: the two targets over a sequence of results -/

lemma targetSphereReports_append (a b : List Call) :
    targetSphereReports (a ++ b) = targetSphereReports a + targetSphereReports b := by
  simp [targetSphereReports]

lemma rightHandReports_append (a b : List Call) :
    rightHandReports (a ++ b) = rightHandReports a + rightHandReports b := by
  simp [rightHandReports]

lemma count_error_logs (msg : String) (f : String → String) (ns : List String) :
    (ns.map (fun n => Call.log (f n))).count (.error msg) = 0 := by
  induction ns with
  | nil => rfl
  | cons n rest ih => simpa [List.count_cons] using ih

lemma listObjects_reports (scene : Scene) (s : State) :
    targetSphereReports (listObjects scene s).2 = 0
      ∧ rightHandReports (listObjects scene s).2 = 0
      ∧ (listObjects scene s).1.targetSphereMissing = s.targetSphereMissing
      ∧ (listObjects scene s).1.rightHandMissing = s.rightHandMissing := by
  unfold listObjects
  split
  · refine ⟨?_, ?_, rfl, rfl⟩
    · simp [targetSphereReports, List.count_cons, count_error_logs]
    · simp [rightHandReports, List.count_cons, count_error_logs]
  · exact ⟨rfl, rfl, rfl, rfl⟩

lemma trackLeftShoulder_reports (scene : Scene) (lms : List (Option Landmark)) (s : State) :
    targetSphereReports (trackLeftShoulder scene lms s).2 + s.targetSphereMissing.toNat
        = (trackLeftShoulder scene lms s).1.targetSphereMissing.toNat
      ∧ rightHandReports (trackLeftShoulder scene lms s).2 = 0
      ∧ (trackLeftShoulder scene lms s).1.rightHandMissing = s.rightHandMissing := by
  unfold trackLeftShoulder
  split
  · split_ifs with h1 h2 h3 h4
    · simp [targetSphereReports, rightHandReports]
    · simp [targetSphereReports, rightHandReports]
    · simp at h4
      simp [targetSphereReports, rightHandReports, h4]
    · simp [targetSphereReports, rightHandReports]
    · simp [targetSphereReports, rightHandReports]
  · simp [targetSphereReports, rightHandReports]

lemma trackRightWrist_reports (scene : Scene) (lms : List (Option Landmark)) (s : State) :
    rightHandReports (trackRightWrist scene lms s).2 + s.rightHandMissing.toNat
        = (trackRightWrist scene lms s).1.rightHandMissing.toNat
      ∧ targetSphereReports (trackRightWrist scene lms s).2 = 0
      ∧ (trackRightWrist scene lms s).1.targetSphereMissing = s.targetSphereMissing := by
  unfold trackRightWrist
  split
  · split_ifs with h1 h2 h3 h4
    · simp [targetSphereReports, rightHandReports]
    · simp [targetSphereReports, rightHandReports]
    · simp at h4
      simp [targetSphereReports, rightHandReports, h4]
    · simp [targetSphereReports, rightHandReports]
    · simp [targetSphereReports, rightHandReports]
  · simp [targetSphereReports, rightHandReports]

lemma update_reports (scene : Scene) (lms : List (Option Landmark)) (s : State) :
    targetSphereReports (updatePlayCanvasObjects scene lms s).2 + s.targetSphereMissing.toNat
        = (updatePlayCanvasObjects scene lms s).1.targetSphereMissing.toNat
      ∧ rightHandReports (updatePlayCanvasObjects scene lms s).2 + s.rightHandMissing.toNat
        = (updatePlayCanvasObjects scene lms s).1.rightHandMissing.toNat := by
  obtain ⟨a1, a2, a3, a4⟩ := listObjects_reports scene s
  obtain ⟨b1, b2, b3⟩ := trackLeftShoulder_reports scene lms (listObjects scene s).1
  obtain ⟨c1, c2, c3⟩ :=
    trackRightWrist_reports scene lms (trackLeftShoulder scene lms (listObjects scene s).1).1
  simp only [updatePlayCanvasObjects, targetSphereReports_append, rightHandReports_append]
  rw [a3] at b1
  rw [b3, a4] at c1
  rw [a1, a2, b2, c2, c3]
  constructor <;> omega

lemma drawPose_reports (results : Option (List (Option Landmark))) :
    targetSphereReports (drawPose results) = 0 ∧ rightHandReports (drawPose results) = 0 := by
  cases results <;> simp [drawPose, targetSphereReports, rightHandReports]

lemma noteDetection_reports (lms : List (Option Landmark)) (s : State) :
    targetSphereReports (noteDetection lms s).2 = 0
      ∧ rightHandReports (noteDetection lms s).2 = 0 := by
  rcases noteDetection_calls lms s with h | h <;> rw [h] <;>
    simp [targetSphereReports, rightHandReports]

lemma onPoseResults_reports (scene : Scene) (results : Option (List (Option Landmark)))
    (s : State) :
    targetSphereReports (onPoseResults scene results s).2 + s.targetSphereMissing.toNat
        = (onPoseResults scene results s).1.targetSphereMissing.toNat
      ∧ rightHandReports (onPoseResults scene results s).2 + s.rightHandMissing.toNat
        = (onPoseResults scene results s).1.rightHandMissing.toNat := by
  cases results with
  | none =>
    simp only [onPoseResults]
    split_ifs <;> simp [targetSphereReports, rightHandReports]
  | some lms =>
    obtain ⟨u1, u2⟩ := update_reports scene lms (noteDetection lms s).1
    obtain ⟨-, f1, f2⟩ := noteDetection_fields lms s
    obtain ⟨n1, n2⟩ := noteDetection_reports lms s
    obtain ⟨d1, d2⟩ := drawPose_reports (some lms)
    rw [f1] at u1
    rw [f2] at u2
    simp only [onPoseResults, targetSphereReports_append, rightHandReports_append, n1, n2, d1, d2]
    constructor <;> omega

lemma runResults_reports (fs : List (Scene × Option (List (Option Landmark)))) (s : State) :
    targetSphereReports (runResults s fs).flatten + s.targetSphereMissing.toNat ≤ 1
      ∧ rightHandReports (runResults s fs).flatten + s.rightHandMissing.toNat ≤ 1 := by
  induction fs generalizing s with
  | nil =>
    simp only [runResults, List.flatten_nil, targetSphereReports, rightHandReports, List.count_nil,
      zero_add]
    exact ⟨Bool.toNat_le _, Bool.toNat_le _⟩
  | cons f rest ih =>
    obtain ⟨h1, h2⟩ := onPoseResults_reports f.1 f.2 s
    obtain ⟨i1, i2⟩ := ih (onPoseResults f.1 f.2 s).1
    simp only [runResults, List.flatten_cons, targetSphereReports_append, rightHandReports_append]
    constructor <;> omega

lemma onPoseResults_scale (scene : Scene) (results : Option (List (Option Landmark)))
    (s : State) : (onPoseResults scene results s).1.movementScale = s.movementScale := by
  cases results with
  | none =>
    simp only [onPoseResults]
    split_ifs <;> rfl
  | some lms =>
    simp only [onPoseResults, updatePlayCanvasObjects, trackRightWrist_scale,
      trackLeftShoulder_scale, listObjects_scale, (noteDetection_fields lms s).1]

lemma runResults_frame (fs : List (Scene × Option (List (Option Landmark)))) (s : State)
    (i : Nat) (f : Scene × Option (List (Option Landmark))) (h : fs.get? i = some f) :
    ∃ s1, s1.movementScale = s.movementScale
      ∧ (runResults s fs).get? i = some (onPoseResults f.1 f.2 s1).2 := by
  induction fs generalizing s i with
  | nil => simp at h
  | cons g rest ih =>
    cases i with
    | zero =>
      simp only [List.get?_cons_zero, Option.some.injEq] at h
      subst h
      exact ⟨s, rfl, rfl⟩
    | succ j =>
      simp only [List.get?_cons_succ] at h
      obtain ⟨s1, hs, hg⟩ := ih (onPoseResults g.1 g.2 s).1 j h
      exact ⟨s1, by rw [hs, onPoseResults_scale], by simpa [runResults] using hg⟩

/-- C8: over every sequence of pose results a missing TargetSphere and a
missing RightHandTarget are each reported on the error log at most once,
and on every frame in which landmark 16 has visibility above 0.5 and
RightHandTarget is found that entity is positioned, whether TargetSphere is
found or missing; the same holds with the two targets exchanged. -/
theorem targets_degrade_independently (s : State)
    (fs : List (Scene × Option (List (Option Landmark)))) :
    targetSphereReports (runResults s fs).flatten ≤ 1
      ∧ rightHandReports (runResults s fs).flatten ≤ 1
      ∧ (∀ i scene lms l, fs.get? i = some (scene, some lms) → landmarkAt lms 16 = some l →
          l.visibility > 0.5 → scene.findByName "RightHandTarget" = true →
          ∃ cs, (runResults s fs).get? i = some cs
            ∧ positionsOf "RightHandTarget" cs
              = [((l.x - 0.5) * s.movementScale, -(l.y - 0.5) * s.movementScale,
                  -l.z * s.movementScale)])
      ∧ (∀ i scene lms l, fs.get? i = some (scene, some lms) → landmarkAt lms 11 = some l →
          l.visibility > 0.5 → scene.findByName "TargetSphere" = true →
          ∃ cs, (runResults s fs).get? i = some cs
            ∧ positionsOf "TargetSphere" cs
              = [((l.x - 0.5) * s.movementScale, -(l.y - 0.5) * s.movementScale,
                  -l.z * s.movementScale)]) := by
  obtain ⟨r1, r2⟩ := runResults_reports fs s
  refine ⟨by omega, by omega, ?_, ?_⟩
  · intro i scene lms l hi hl hv hf
    obtain ⟨s1, hs, hg⟩ := runResults_frame fs s i _ hi
    refine ⟨_, hg, ?_⟩
    obtain ⟨s2, h2, hs2⟩ := onPoseResults_rightHand scene lms s1
    rw [h2, trackRightWrist_sets scene lms s2 l hl hv hf, hs2, hs]
  · intro i scene lms l hi hl hv hf
    obtain ⟨s1, hs, hg⟩ := runResults_frame fs s i _ hi
    refine ⟨_, hg, ?_⟩
    obtain ⟨s2, h2, hs2⟩ := onPoseResults_targetSphere scene lms s1
    rw [h2, trackLeftShoulder_sets scene lms s2 l hl hv hf, hs2, hs]

/-! ## Resource loader: the attempt bound -/

lemma count_checkLog (n : Nat) (c : Call) (hc : ∀ m, Call.log m ≠ c) :
    (checkLog n).count c = 0 := by
  unfold checkLog
  split_ifs
  · exact List.count_eq_zero.mpr (by simpa using fun h => hc _ h.symm)
  · rfl

lemma checkLibraries_last (globals : Nat → Globals) (cam : CameraOutcome) (s : State)
    (attempts : Nat) (hfail : allDefined (globals (attempts + 1)) = false)
    (hlt : ¬ attempts + 1 < maxAttempts) :
    checkLibraries globals cam attempts s
      = (s, [.enter "checkLibraries"] ++ checkLog (attempts + 1)
              ++ [.error "❌ MediaPipe libraries failed to load"]
              ++ showError "Failed to load MediaPipe libraries. Please refresh the page.") := by
  rw [checkLibraries]
  simp only [hfail, Bool.false_eq_true, if_false, hlt]

lemma checkLibraries_again (globals : Nat → Globals) (cam : CameraOutcome) (s : State)
    (attempts : Nat) (hfail : allDefined (globals (attempts + 1)) = false)
    (hlt : attempts + 1 < maxAttempts) :
    checkLibraries globals cam attempts s
      = ((checkLibraries globals cam (attempts + 1) s).1,
         [.enter "checkLibraries"] ++ checkLog (attempts + 1) ++ [.setTimeout 300]
           ++ (checkLibraries globals cam (attempts + 1) s).2) := by
  rw [checkLibraries]
  simp only [hfail, Bool.false_eq_true, if_false, hlt, if_true]

lemma checkLibraries_exhausts (globals : Nat → Globals) (cam : CameraOutcome) (s : State)
    (k : Nat) :
    ∀ attempts, attempts + (k + 1) = maxAttempts →
      (∀ n, attempts < n → n ≤ maxAttempts → allDefined (globals n) = false) →
      (checkLibraries globals cam attempts s).1 = s
        ∧ checksDone (checkLibraries globals cam attempts s).2 = k + 1
        ∧ checksScheduled (checkLibraries globals cam attempts s).2 = k
        ∧ loadErrorsShown (checkLibraries globals cam attempts s).2 = 1
        ∧ cameraSetups (checkLibraries globals cam attempts s).2 = 0 := by
  induction k with
  | zero =>
    intro attempts ha hg
    have hfail := hg (attempts + 1) (by omega) (by omega)
    have hlt : ¬ attempts + 1 < maxAttempts := by omega
    rw [checkLibraries_last globals cam s attempts hfail hlt]
    refine ⟨rfl, ?_, ?_, ?_, ?_⟩
    · simp [checksDone, showError, List.count_cons, count_checkLog]
    · simp [checksScheduled, showError, List.count_cons, count_checkLog]
    · simp [loadErrorsShown, showError, List.count_cons, count_checkLog]
    · simp [cameraSetups, showError, List.count_cons, count_checkLog]
  | succ k ih =>
    intro attempts ha hg
    have hfail := hg (attempts + 1) (by omega) (by omega)
    have hlt : attempts + 1 < maxAttempts := by omega
    obtain ⟨i0, i1, i2, i3, i4⟩ :=
      ih (attempts + 1) (by omega) (fun n hn hm => hg n (by omega) hm)
    rw [checkLibraries_again globals cam s attempts hfail hlt]
    simp only [checksDone, checksScheduled, loadErrorsShown, cameraSetups] at i1 i2 i3 i4 ⊢
    refine ⟨i0, ?_, ?_, ?_, ?_⟩
    · simp [List.count_cons, count_checkLog, i1]
    · simp [List.count_cons, count_checkLog, i2]
    · simp [List.count_cons, count_checkLog, i3]
    · simp [List.count_cons, count_checkLog, i4]

/-- C5: in waitForMediaPipe, if on each of the first 50 checks at least one
of the four globals is undefined, then checkLibraries runs exactly 50 times,
a further check is scheduled 49 times (none after the fiftieth), the error
"Failed to load MediaPipe libraries" is shown exactly once, and setupCamera
is never entered; the instance is left unchanged. -/
theorem waitForMediaPipe_exhausts (globals : Nat → Globals) (cam : CameraOutcome) (s : State)
    (h : ∀ n, 1 ≤ n → n ≤ 50 → allDefined (globals n) = false) :
    checksDone (waitForMediaPipe globals cam s).2 = 50
      ∧ checksScheduled (waitForMediaPipe globals cam s).2 = 49
      ∧ loadErrorsShown (waitForMediaPipe globals cam s).2 = 1
      ∧ cameraSetups (waitForMediaPipe globals cam s).2 = 0
      ∧ (waitForMediaPipe globals cam s).1 = s := by
  obtain ⟨h0, h1, h2, h3, h4⟩ :=
    checkLibraries_exhausts globals cam s 49 0 rfl (fun n hn hm => h n (by omega) hm)
  simp only [waitForMediaPipe]
  refine ⟨?_, ?_, ?_, ?_, h0⟩
  · simp only [checksDone] at h1 ⊢
    simp [List.count_cons, h1]
  · simp only [checksScheduled] at h2 ⊢
    simp [List.count_cons, h2]
  · simp only [loadErrorsShown] at h3 ⊢
    simp [List.count_cons, h3]
  · simp only [cameraSetups] at h4 ⊢
    simp [List.count_cons, h4]

/-- Witness of C5: none of the four globals ever appears. -/
theorem waitForMediaPipe_exhausts_witness :
    checksDone (waitForMediaPipe (fun _ => ⟨false, false, false, false⟩) .granted (fresh 10)).2 = 50
      ∧ checksScheduled
          (waitForMediaPipe (fun _ => ⟨false, false, false, false⟩) .granted (fresh 10)).2 = 49
      ∧ loadErrorsShown
          (waitForMediaPipe (fun _ => ⟨false, false, false, false⟩) .granted (fresh 10)).2 = 1
      ∧ cameraSetups
          (waitForMediaPipe (fun _ => ⟨false, false, false, false⟩) .granted (fresh 10)).2 = 0
      ∧ (waitForMediaPipe (fun _ => ⟨false, false, false, false⟩) .granted (fresh 10)).1
          = fresh 10 :=
  waitForMediaPipe_exhausts (fun _ => ⟨false, false, false, false⟩) .granted (fresh 10)
    (fun _ _ _ => rfl)

/-! ## Camera acquirer: denial -/

lemma dispatch_idle (s : State) (e : Event) (h : Idle s) :
    Idle (dispatch s e).1 ∧ sends (dispatch s e).2 = 0
      ∧ initializeCalls (dispatch s e).2 = 0 := by
  obtain ⟨h1, h2, h3, h4, h5⟩ := h
  cases e with
  | loadedmetadata b => simp [dispatch, h1, Idle, h2, h3, h4, h5, sends, initializeCalls]
  | loadeddata b => simp [dispatch, h1, Idle, h2, h3, h4, h5, sends, initializeCalls]
  | fallbackTimeout b => simp [dispatch, h1, Idle, h2, h3, h4, h5, sends, initializeCalls]
  | warnTimeout =>
    simp only [dispatch]
    split_ifs <;>
      simp [onWarnTimeout, h1, Idle, h2, h3, h4, h5, sends, initializeCalls]
  | animationFrame r =>
    simp [dispatch, tickLoops, h1, Idle, h2, h3, h4, h5, sends, initializeCalls]
  | sendResolved i =>
    simp [dispatch, settleLoop, h1, Idle, h2, h3, h4, h5, sends, initializeCalls]
  | sendRejected i =>
    simp [dispatch, settleLoop, h1, Idle, h2, h3, h4, h5, sends, initializeCalls]
  | results scene r => simp [dispatch, h1, Idle, h2, h3, h4, h5, sends, initializeCalls]
  | button e => simp [dispatch, h1, Idle, h2, h3, h4, h5, sends, initializeCalls]

lemma run_idle (evs : List Event) (s : State) (h : Idle s) :
    Idle (run s evs).1 ∧ sends (run s evs).2 = 0 ∧ initializeCalls (run s evs).2 = 0 := by
  induction evs generalizing s with
  | nil => exact ⟨h, rfl, rfl⟩
  | cons e rest ih =>
    obtain ⟨d1, d2, d3⟩ := dispatch_idle s e h
    obtain ⟨r1, r2, r3⟩ := ih (dispatch s e).1 d1
    simp only [sends, initializeCalls] at d2 d3 r2 r3 ⊢
    exact ⟨r1, by simp [run, d2, r2], by simp [run, d3, r3]⟩

/-- C6: when the getUserMedia request of setupCamera rejects, the message
"Camera Access Denied" is shown once, the instance is left as it was (no
readiness handler installed, no fallback timer set), and whatever the
browser delivers afterwards, initializeMediaPipe is never entered and
pose.send is never called. -/
theorem camera_denied_never_starts (s : State) (hv : s.videoElement = true) (hi : Idle s)
    (evs : List Event) :
    cameraErrorsShown (setupCamera .denied s).2 = 1
      ∧ (setupCamera .denied s).1 = s
      ∧ (setupCamera .denied s).1.onloadedmetadata = false
      ∧ (setupCamera .denied s).1.onloadeddata = false
      ∧ (setupCamera .denied s).1.fallbackTimers = 0
      ∧ fallbackTimersSet (setupCamera .denied s).2 = 0
      ∧ initializeCalls ((setupCamera .denied s).2 ++ (run (setupCamera .denied s).1 evs).2) = 0
      ∧ sends ((setupCamera .denied s).2 ++ (run (setupCamera .denied s).1 evs).2) = 0 := by
  have hs : setupCamera .denied s
      = (s, [.enter "setupCamera", .log "📹 Requesting camera access...", .getUserMedia]
            ++ ([.error "❌ Camera Error:"]
              ++ showError "Camera Access Denied. Please allow camera access and refresh.")) := by
    simp [setupCamera, hv]
  obtain ⟨r1, r2, r3⟩ := run_idle evs s hi
  rw [hs]
  simp only [sends, initializeCalls] at r2 r3
  refine ⟨?_, rfl, hi.1, hi.2.1, hi.2.2.1, ?_, ?_, ?_⟩
  · simp [cameraErrorsShown, showError, List.count_cons]
  · simp [fallbackTimersSet, showError, List.count_cons]
  · simp [initializeCalls, showError, List.count_cons, r3]
  · simp [sends, showError, List.count_cons, r2]

/-- Witness of C6: the instance right after the libraries became ready; the
browser then delivers both media events, the timer, frames and a result. -/
theorem camera_denied_never_starts_witness :
    cameraErrorsShown
        (setupCamera .denied { (createCameraElements (fresh 10)).1 with mediaPipeReady := true }).2
        = 1
      ∧ sends
        ((setupCamera .denied
            { (createCameraElements (fresh 10)).1 with mediaPipeReady := true }).2
          ++ (run (setupCamera .denied
                { (createCameraElements (fresh 10)).1 with mediaPipeReady := true }).1
              [.loadedmetadata ⟨640, 480, 4, none⟩, .loadeddata ⟨640, 480, 4, none⟩,
               .fallbackTimeout ⟨640, 480, 4, none⟩, .animationFrame 4,
               .results (sceneWith fun _ => true) none, .animationFrame 4]).2) = 0 :=
  ⟨(camera_denied_never_starts
      { (createCameraElements (fresh 10)).1 with mediaPipeReady := true } rfl
      ⟨rfl, rfl, rfl, rfl, rfl⟩
      [.loadedmetadata ⟨640, 480, 4, none⟩, .loadeddata ⟨640, 480, 4, none⟩,
       .fallbackTimeout ⟨640, 480, 4, none⟩, .animationFrame 4,
       .results (sceneWith fun _ => true) none, .animationFrame 4]).1,
   (camera_denied_never_starts
      { (createCameraElements (fresh 10)).1 with mediaPipeReady := true } rfl
      ⟨rfl, rfl, rfl, rfl, rfl⟩
      [.loadedmetadata ⟨640, 480, 4, none⟩, .loadeddata ⟨640, 480, 4, none⟩,
       .fallbackTimeout ⟨640, 480, 4, none⟩, .animationFrame 4,
       .results (sceneWith fun _ => true) none, .animationFrame 4]).2.2.2.2.2.2.2⟩

/-! ## Resource loader: a failed fetch -/

lemma fetchCompletions_short (globals : Nat → Globals) (cam : CameraOutcome)
    (arrivals : List (String × FetchOutcome)) :
    ∀ (loadedCount : Nat) (s : State), loadedCount + loadedAmong arrivals < libraries.length →
      (fetchCompletions globals cam arrivals loadedCount s).1 = s
        ∧ pollingStarts (fetchCompletions globals cam arrivals loadedCount s).2 = 0
        ∧ checksDone (fetchCompletions globals cam arrivals loadedCount s).2 = 0
        ∧ checksScheduled (fetchCompletions globals cam arrivals loadedCount s).2 = 0
        ∧ loadErrorsShown (fetchCompletions globals cam arrivals loadedCount s).2 = 0
        ∧ fetchFailuresLogged (fetchCompletions globals cam arrivals loadedCount s).2
            = failedAmong arrivals := by
  induction arrivals with
  | nil => intro n s _; exact ⟨rfl, rfl, rfl, rfl, rfl, rfl⟩
  | cons a rest ih =>
    intro n s h
    obtain ⟨url, o⟩ := a
    cases o with
    | loaded =>
      have hl : loadedAmong ((url, FetchOutcome.loaded) :: rest) = loadedAmong rest + 1 := by
        simp [loadedAmong]
      have hf : failedAmong ((url, FetchOutcome.loaded) :: rest) = failedAmong rest := by
        simp [failedAmong]
      have hne : ¬ n + 1 = libraries.length := by omega
      have hstep : onLibraryLoaded globals cam n s
          = (n + 1, s, [.log ("✅ Loaded " ++ toString (n + 1) ++ "/"
              ++ toString libraries.length ++ " libraries")]) := by
        simp only [onLibraryLoaded, hne, if_false]
      obtain ⟨i0, i1, i2, i3, i4, i5⟩ := ih (n + 1) s (by omega)
      simp only [fetchCompletions, hstep, hf]
      simp only [pollingStarts, checksDone, checksScheduled, loadErrorsShown,
        fetchFailuresLogged] at i1 i2 i3 i4 i5 ⊢
      exact ⟨i0, by simp [List.count_cons, i1], by simp [List.count_cons, i2],
        by simp [List.count_cons, i3], by simp [List.count_cons, i4],
        by simp [List.count_cons, i5]⟩
    | failed =>
      have hl : loadedAmong ((url, FetchOutcome.failed) :: rest) = loadedAmong rest := by
        simp [loadedAmong]
      have hf : failedAmong ((url, FetchOutcome.failed) :: rest) = failedAmong rest + 1 := by
        simp [failedAmong]
      obtain ⟨i0, i1, i2, i3, i4, i5⟩ := ih n s (by omega)
      simp only [fetchCompletions, onLibraryError, hf]
      simp only [pollingStarts, checksDone, checksScheduled, loadErrorsShown,
        fetchFailuresLogged] at i1 i2 i3 i4 i5 ⊢
      exact ⟨i0, by simp [List.count_cons, i1], by simp [List.count_cons, i2],
        by simp [List.count_cons, i3], by simp [List.count_cons, i4],
        by simp [List.count_cons, i5]⟩

lemma loadMediaPipeLibraries_short (globals : Nat → Globals) (cam : CameraOutcome)
    (arrivals : List (String × FetchOutcome)) (s : State)
    (h : loadedAmong arrivals < libraries.length) :
    (loadMediaPipeLibraries arrivals globals cam s).1 = s
      ∧ pollingStarts (loadMediaPipeLibraries arrivals globals cam s).2 = 0
      ∧ checksDone (loadMediaPipeLibraries arrivals globals cam s).2 = 0
      ∧ checksScheduled (loadMediaPipeLibraries arrivals globals cam s).2 = 0
      ∧ loadErrorsShown (loadMediaPipeLibraries arrivals globals cam s).2 = 0
      ∧ fetchFailuresLogged (loadMediaPipeLibraries arrivals globals cam s).2
          = failedAmong arrivals := by
  obtain ⟨i0, i1, i2, i3, i4, i5⟩ := fetchCompletions_short globals cam arrivals 0 s (by omega)
  simp only [pollingStarts, checksDone, checksScheduled, loadErrorsShown,
    fetchFailuresLogged] at i1 i2 i3 i4 i5 ⊢
  simp only [loadMediaPipeLibraries]
  exact ⟨i0, by simp [List.count_cons, libraries, i1], by simp [List.count_cons, libraries, i2],
    by simp [List.count_cons, libraries, i3], by simp [List.count_cons, libraries, i4],
    by simp [List.count_cons, libraries, i5]⟩

/-- C7, as stated, fails: with the first fetch failed and the second loaded,
and none of the globals ever defined, no readiness check runs and the
library-load failure is never shown. -/
theorem fetch_failure_polls_counterexample :
    checksDone
        (loadMediaPipeLibraries
          [("https://cdn.jsdelivr.net/npm/@mediapipe/drawing_utils/drawing_utils.js", .failed),
           ("https://cdn.jsdelivr.net/npm/@mediapipe/pose/pose.js", .loaded)]
          (fun _ => ⟨false, false, false, false⟩) .granted (fresh 10)).2 = 0
      ∧ loadErrorsShown
        (loadMediaPipeLibraries
          [("https://cdn.jsdelivr.net/npm/@mediapipe/drawing_utils/drawing_utils.js", .failed),
           ("https://cdn.jsdelivr.net/npm/@mediapipe/pose/pose.js", .loaded)]
          (fun _ => ⟨false, false, false, false⟩) .granted (fresh 10)).2 = 0 := by
  have h := loadMediaPipeLibraries_short (fun _ => ⟨false, false, false, false⟩) .granted
    [("https://cdn.jsdelivr.net/npm/@mediapipe/drawing_utils/drawing_utils.js", .failed),
     ("https://cdn.jsdelivr.net/npm/@mediapipe/pose/pose.js", .loaded)] (fresh 10)
    (by simp [loadedAmong, libraries])
  exact ⟨h.2.2.1, h.2.2.2.2.1⟩

/-- C7, amended: each failed fetch is logged, and for every outcome of the
two script fetches in which at least one fails (the two completions taken in
their order of arrival, whichever script comes first), readiness polling
never starts: waitForMediaPipe is not entered, no check runs and none is
scheduled, and the instance is left unchanged. -/
theorem fetch_failure_never_polls (globals : Nat → Globals) (cam : CameraOutcome) (s : State)
    (first second : String × FetchOutcome)
    (hf : first.2 = .failed ∨ second.2 = .failed) :
    fetchFailuresLogged (loadMediaPipeLibraries [first, second] globals cam s).2
        = failedAmong [first, second]
      ∧ 1 ≤ fetchFailuresLogged (loadMediaPipeLibraries [first, second] globals cam s).2
      ∧ pollingStarts (loadMediaPipeLibraries [first, second] globals cam s).2 = 0
      ∧ checksDone (loadMediaPipeLibraries [first, second] globals cam s).2 = 0
      ∧ checksScheduled (loadMediaPipeLibraries [first, second] globals cam s).2 = 0
      ∧ (loadMediaPipeLibraries [first, second] globals cam s).1 = s := by
  obtain ⟨u1, o1⟩ := first
  obtain ⟨u2, o2⟩ := second
  have hl : loadedAmong [(u1, o1), (u2, o2)] < libraries.length := by
    cases o1 <;> cases o2 <;> simp [loadedAmong, libraries] at hf ⊢
  have hfa : 1 ≤ failedAmong [(u1, o1), (u2, o2)] := by
    cases o1 <;> cases o2 <;> simp [failedAmong] at hf ⊢
  obtain ⟨i0, i1, i2, i3, -, i5⟩ :=
    loadMediaPipeLibraries_short globals cam [(u1, o1), (u2, o2)] s hl
  exact ⟨i5, by rw [i5]; exact hfa, i1, i2, i3, i0⟩

/-- Witness of the amended C7: the pose script arrives first and loads, the
drawing script fails, and all four globals are defined throughout. -/
theorem fetch_failure_never_polls_witness :
    1 ≤ fetchFailuresLogged
        (loadMediaPipeLibraries
          [("https://cdn.jsdelivr.net/npm/@mediapipe/pose/pose.js", .loaded),
           ("https://cdn.jsdelivr.net/npm/@mediapipe/drawing_utils/drawing_utils.js", .failed)]
          (fun _ => ⟨true, true, true, true⟩) .granted (fresh 10)).2
      ∧ pollingStarts
        (loadMediaPipeLibraries
          [("https://cdn.jsdelivr.net/npm/@mediapipe/pose/pose.js", .loaded),
           ("https://cdn.jsdelivr.net/npm/@mediapipe/drawing_utils/drawing_utils.js", .failed)]
          (fun _ => ⟨true, true, true, true⟩) .granted (fresh 10)).2 = 0
      ∧ checksDone
        (loadMediaPipeLibraries
          [("https://cdn.jsdelivr.net/npm/@mediapipe/pose/pose.js", .loaded),
           ("https://cdn.jsdelivr.net/npm/@mediapipe/drawing_utils/drawing_utils.js", .failed)]
          (fun _ => ⟨true, true, true, true⟩) .granted (fresh 10)).2 = 0 :=
  have h := fetch_failure_never_polls (fun _ => ⟨true, true, true, true⟩) .granted (fresh 10)
    ("https://cdn.jsdelivr.net/npm/@mediapipe/pose/pose.js", .loaded)
    ("https://cdn.jsdelivr.net/npm/@mediapipe/drawing_utils/drawing_utils.js", .failed)
    (Or.inr rfl)
  ⟨h.2.1, h.2.2.1, h.2.2.2.1⟩

/-- Witness of C8: TargetSphere is missing on both frames and RightHandTarget
is found; the right wrist is confident on both frames. -/
theorem targets_degrade_independently_witness :
    targetSphereReports
        (runResults (fresh 10)
          [(sceneWith fun n => n == "RightHandTarget",
            some (sparseLandmarks (some ⟨0.5, 0.5, 0, 0.9⟩) (some ⟨0.75, 0.25, 0.1, 0.9⟩))),
           (sceneWith fun n => n == "RightHandTarget",
            some (sparseLandmarks (some ⟨0.5, 0.5, 0, 0.9⟩) (some ⟨0.75, 0.25, 0.1, 0.9⟩)))]).flatten
        ≤ 1
      ∧ ∃ cs, (runResults (fresh 10)
          [(sceneWith fun n => n == "RightHandTarget",
            some (sparseLandmarks (some ⟨0.5, 0.5, 0, 0.9⟩) (some ⟨0.75, 0.25, 0.1, 0.9⟩))),
           (sceneWith fun n => n == "RightHandTarget",
            some (sparseLandmarks (some ⟨0.5, 0.5, 0, 0.9⟩) (some ⟨0.75, 0.25, 0.1, 0.9⟩)))]).get? 1
          = some cs
        ∧ positionsOf "RightHandTarget" cs
          = [(((0.75 : ℚ) - 0.5) * 10, -((0.25 : ℚ) - 0.5) * 10, -(0.1 : ℚ) * 10)] :=
  have h := targets_degrade_independently (fresh 10)
    [(sceneWith fun n => n == "RightHandTarget",
      some (sparseLandmarks (some ⟨0.5, 0.5, 0, 0.9⟩) (some ⟨0.75, 0.25, 0.1, 0.9⟩))),
     (sceneWith fun n => n == "RightHandTarget",
      some (sparseLandmarks (some ⟨0.5, 0.5, 0, 0.9⟩) (some ⟨0.75, 0.25, 0.1, 0.9⟩)))]
  ⟨h.1, h.2.2.1 1 (sceneWith fun n => n == "RightHandTarget")
    (sparseLandmarks (some ⟨0.5, 0.5, 0, 0.9⟩) (some ⟨0.75, 0.25, 0.1, 0.9⟩))
    ⟨0.75, 0.25, 0.1, 0.9⟩ rfl rfl (by norm_num) (by decide)⟩

/-- Witness of C2: after one tick on a ready video a request is in flight;
a second tick then submits nothing, the completion clears the mark and the
next tick submits, so that the four events make two pose.send calls. -/
theorem at_most_one_in_flight_witness :
    0 < (runLoop newLoop [.tick true true 4]).1.pending
      ∧ detectFrame true true 4 (runLoop newLoop [.tick true true 4]).1
          = ((runLoop newLoop [.tick true true 4]).1, [.requestAnimationFrame])
      ∧ (sendResolved (runLoop newLoop [.tick true true 4]).1).1.pending = 0
      ∧ Call.send ∈ (detectFrame true true 4
          (sendResolved (runLoop newLoop [.tick true true 4]).1).1).2
      ∧ sends (runLoop newLoop ([] ++ [.tick true true 4, .resolved, .tick true true 4])).2
          = sends (runLoop newLoop ([] ++ [.tick true true 4, .resolved])).2 + 1 :=
  ⟨by decide,
   (at_most_one_in_flight [.tick true true 4]).2.1 (by decide) true true 4,
   ((at_most_one_in_flight [.tick true true 4]).2.2.1 (by decide)).1,
   (((at_most_one_in_flight [.tick true true 4]).2.2.1 (by decide)).2.2 4 (by decide)).1,
   ((at_most_one_in_flight []).2.2.2.2.2.2.1 4 4 (by decide) (by decide)).2.1⟩

end PoseDetector
